import Mathlib

/-!
Verification development for the smart-vehicle-twin telemetry simulators.

The repository contains several simulator variants; the claims concern:
  * `src/sim/simulator.py`  — the module-level tick loop (namespace `SimLoop`);
  * `src/sim/pro_sim.py`    — `main` with lap summaries and a loop guard
                              (namespace `ProSim`);
  * `src/src/simulator.py` and `src/src/simulator_backup.py` — the
    `risk_and_reason` scorers (namespace `SrcSim`).

Numbers are modelled by `ℚ` (exact arithmetic; the Python code uses binary
floats, but every claim here is about clamping, monotonicity, control flow
and emitted records, none of which hinge on rounding error).  Calls to the
random number generator are modelled by explicit draw records passed to each
tick; range hypotheses on the draws mirror the `random.uniform` bounds.
Transcendental subterms (`math.sin`, the `**1.2` power) are likewise passed
in as oracle inputs constrained by the hypotheses their mathematical values
satisfy.  File/MQTT I/O does not affect simulator state except through the
exception behaviour modelled in `ProSim.pro_main` / `SimLoop.sim_main`.
-/

/-- Round half to even, as Python's `round` and `format` do (exact-value
model; Python operates on the binary-float value). -/
def roundHalfEven (q : ℚ) : ℤ :=
  let f : ℤ := ⌊q⌋
  let r : ℚ := q - f
  if r < 1/2 then f
  else if 1/2 < r then f + 1
  else if 2 ∣ f then f else f + 1

/-- Python's `round(x, d)`: round to `d` decimal places, half to even. -/
def roundTo (d : ℕ) (q : ℚ) : ℚ :=
  (roundHalfEven (q * (10 : ℚ) ^ d) : ℚ) / (10 : ℚ) ^ d

/-- Python's fixed-point format `f"{q:.df}"`. -/
def fmtDec (d : ℕ) (q : ℚ) : String :=
  let m : ℤ := roundHalfEven (q * (10 : ℚ) ^ d)
  let sgn : String := if m < 0 then ("-") else ("")
  let a : ℕ := m.natAbs
  let ip : ℕ := a / 10 ^ d
  let fp : ℕ := a % 10 ^ d
  let fs : String := toString fp
  let pad : String := String.mk (List.replicate (d - fs.length) ('0'))
  if d = 0 then sgn ++ toString ip
  else sgn ++ toString ip ++ (".") ++ pad ++ fs

namespace SimLoop

/-- Config values read at the top of `src/sim/simulator.py` from
`configs/bmw_i4.json` (all coerced to float there; `TICK_SEC` to int, kept
rational here and used through `max 1 _` exactly as the source does). -/
structure SimCfg where
  AMBIENT : ℚ
  TEMP_MAX : ℚ
  PAD_MIN : ℚ
  SOC_MIN : ℚ
  LAP_LEN : ℚ
  TICK_SEC : ℚ
  deriving DecidableEq

/-- `BRAKES`: braking zones as fractions of lap distance. -/
def BRAKES : List (ℚ × ℚ) := [(0.18, 0.24), (0.52, 0.58), (0.82, 0.86)]

/-- `in_brake_zone(frac)`. -/
def in_brake_zone (frac : ℚ) : Bool :=
  BRAKES.any (fun p => decide (p.1 ≤ frac) && decide (frac ≤ p.2))

/-- `risk_and_reasons()` from `src/sim/simulator.py`.  In the source it is a
nullary function reading the module-level state variables `brake_temp`,
`brake_pad`, `battery_soc` and the config constants; those are its explicit
arguments here.  The source builds a Python list of reason strings and
returns `"; ".join(reasons)`; the list is returned here and
`joined_reasons` performs the join. -/
def risk_and_reasons (c : SimCfg) (brake_temp brake_pad battery_soc : ℚ) :
    ℚ × List String :=
  let r1 : ℚ :=
    if c.TEMP_MAX < brake_temp then (min ((brake_temp - c.TEMP_MAX) / 40) 1) * 0.6 else 0
  let s1 : List String :=
    if c.TEMP_MAX < brake_temp then
      [("high brake temp ") ++ fmtDec 1 brake_temp ++ ("C")] else []
  let r2 : ℚ :=
    if brake_pad < c.PAD_MIN then (min ((c.PAD_MIN - brake_pad) / 0.4) 1) * 0.6 else 0
  let s2 : List String :=
    if brake_pad < c.PAD_MIN then [("low pad ") ++ fmtDec 2 brake_pad] else []
  let r3 : ℚ :=
    if battery_soc < c.SOC_MIN then (min ((c.SOC_MIN - battery_soc) / 20) 1) * 0.5 else 0
  let s3 : List String :=
    if battery_soc < c.SOC_MIN then
      [("low SOC ") ++ fmtDec 1 battery_soc ++ ("%")] else []
  let risk : ℚ := r1 + r2 + r3
  let reasons : List String := s1 ++ s2 ++ s3
  let reasons : List String := if reasons = [] then [("nominal")] else reasons
  (max 0 (min 1 risk), reasons)

/-- The `"; ".join(reasons)` applied at the end of `risk_and_reasons`. -/
def joined_reasons (l : List String) : String := String.intercalate ("; ") l

/-- The mutable module-level vehicle state of `src/sim/simulator.py`.
GPS output (`heading_deg`, `gps_from_angle`) needs `sin`/`cos` and feeds only
the logged row, not the dynamics; no claim concerns it, so it is omitted. -/
structure SimState where
  lap : ℕ
  tick : ℕ
  speed_kph : ℚ
  prev_speed_kph : ℚ
  accel_mps2 : ℚ
  battery_soc : ℚ
  brake_pad : ℚ
  brake_temp : ℚ
  tire_wear : ℚ
  lap_distance : ℚ
  session_distance : ℚ
  deriving DecidableEq

/-- The values drawn from `random` during one iteration of the main loop of
`src/sim/simulator.py`, in source order:
`target_fast ~ uniform(140,240)`, `target_slow ~ uniform(60,120)`,
`blend ~ uniform(0.05,0.15)`, `heat_rand ~ uniform(0.5,1.5)`,
`fail_fires = (random() < 1/300)`, `fail_temp ~ uniform(15,30)`,
`fail_soc ~ uniform(1,2)`, `cool_rand ~ uniform(5,10)`. -/
structure SimDraws where
  target_fast : ℚ
  target_slow : ℚ
  blend : ℚ
  heat_rand : ℚ
  fail_fires : Bool
  fail_temp : ℚ
  fail_soc : ℚ
  cool_rand : ℚ
  pub_ok : Bool
  deriving DecidableEq

/-- The failure-injection block of `src/sim/simulator.py` (lines 163-166):
when the event fires it bumps `brake_temp` and drops `battery_soc`, after the
clamps of lines 157-158 / 148 have already run. -/
def sim_failure (fires : Bool) (jump drop : ℚ) (temp soc : ℚ) : ℚ × ℚ :=
  if fires then (temp + jump, soc - drop) else (temp, soc)

/-- One iteration of the main loop of `src/sim/simulator.py`, returning the
new state together with the `(risk, reasons)` pair evaluated this tick.
Statement order follows the source: speed profile, acceleration, distances,
battery drain, brake system with clamps, tires, failure injection, risk
evaluation, then lap rollover (which also cools the brakes). -/
def sim_tick (c : SimCfg) (d : SimDraws) (s : SimState) :
    SimState × ℚ × List String :=
  let target : ℚ :=
    if in_brake_zone (if 0 < c.LAP_LEN then s.lap_distance / c.LAP_LEN else 0)
    then d.target_slow else d.target_fast
  let speed : ℚ := s.speed_kph + (target - s.speed_kph) * d.blend
  let speed : ℚ := max 0 (min 280 speed)
  let accel : ℚ := ((speed - s.prev_speed_kph) / 3.6) / max 1 c.TICK_SEC
  let prev_speed : ℚ := speed
  let dist_m : ℚ := (speed / 3.6) * c.TICK_SEC
  let lap_distance : ℚ := s.lap_distance + dist_m
  let session_distance : ℚ := s.session_distance + dist_m
  let drain : ℚ := 0.005 * c.TICK_SEC + 0.00002 * speed ^ 2 * (c.TICK_SEC / 1)
  let drain : ℚ := drain + max 0 accel * 0.01
  let battery_soc : ℚ := max 0 (s.battery_soc - drain)
  let zone : Bool :=
    in_brake_zone (if 0 < c.LAP_LEN then lap_distance / c.LAP_LEN else 0)
  let brake_temp : ℚ :=
    if zone then s.brake_temp + 0.8 * (speed / 100) + d.heat_rand
    else s.brake_temp + (-(s.brake_temp - (c.AMBIENT + 5)) * 0.04)
  let brake_pad : ℚ :=
    if zone then s.brake_pad - 0.0008 * (speed / 120) else s.brake_pad
  let brake_temp : ℚ := max c.AMBIENT (min 160 brake_temp)
  let brake_pad : ℚ := max 0.05 (min 1 brake_pad)
  let tire_wear : ℚ := min 1 (s.tire_wear + 0.0002 * (speed / 150))
  let ts : ℚ × ℚ := sim_failure d.fail_fires d.fail_temp d.fail_soc brake_temp battery_soc
  let brake_temp : ℚ := ts.1
  let battery_soc : ℚ := ts.2
  let rr : ℚ × List String := risk_and_reasons c brake_temp brake_pad battery_soc
  let tick : ℕ := s.tick + 1
  let roll : Prop := c.LAP_LEN ≤ lap_distance
  let lap : ℕ := if roll then s.lap + 1 else s.lap
  let lap_distance : ℚ := if roll then 0 else lap_distance
  let brake_temp : ℚ :=
    if roll then max (c.AMBIENT + 5) (brake_temp - d.cool_rand) else brake_temp
  (⟨lap, tick, speed, prev_speed, accel, battery_soc, brake_pad, brake_temp,
    tire_wear, lap_distance, session_distance⟩, rr)

/-- The `while True:` driver of `src/sim/simulator.py`, fuel-bounded; the
loop has no exit condition of its own (it runs until interrupted).  Draws
are indexed by the tick counter so that runs of different lengths over one
stream agree on their common steps. -/
def sim_run (c : SimCfg) (ds : ℕ → SimDraws) : ℕ → SimState → SimState
  | 0, s => s
  | Nat.succ n, s => sim_run c ds n (sim_tick c (ds s.tick) s).1

/-- Initial state of `src/sim/simulator.py` (module level). -/
def sim_init (c : SimCfg) : SimState :=
  ⟨1, 0, 0, 0, 0, 98, 1, c.AMBIENT + 10, 0, 0, 0⟩

/-- MQTT setup of `src/sim/simulator.py` (lines 62-71): a connect failure is
caught, logged, and leaves `mqtt_client = None`; it never escapes. -/
def sim_mqtt_setup (enabled connect_ok : Bool) : Option Unit :=
  if enabled && connect_ok then some () else none

/-- The program of `src/sim/simulator.py`: MQTT setup (whose failure is
swallowed) followed by the fuel-bounded tick loop. -/
def sim_main (enabled connect_ok : Bool) (c : SimCfg) (ds : ℕ → SimDraws)
    (n : ℕ) (s : SimState) : Option Unit × SimState :=
  (sim_mqtt_setup enabled connect_ok, sim_run c ds n s)

/-- The `(risk, reasons)` evaluation as used by the loop: `risk_and_reasons`
reads exactly the three state variables `brake_temp`, `brake_pad`,
`battery_soc` (plus config constants) and writes nothing. -/
def score_state (c : SimCfg) (s : SimState) : ℚ × List String :=
  risk_and_reasons c s.brake_temp s.brake_pad s.battery_soc

end SimLoop

namespace ProSim

/-- Module-level constants of `src/sim/pro_sim.py`. -/
def TRACK_KM : ℚ := 5.3
/-- `LAP_M = TRACK_KM * 1000`. -/
def LAP_M : ℚ := TRACK_KM * 1000
def MAX_SPEED : ℚ := 240
def MAX_ACCEL : ℚ := 4
def MAX_BRAKE : ℚ := 7
def BASE_SOC_DROP : ℚ := 0.0004
def TEMP_COOL_RATE : ℚ := 0.25
def TEMP_HEAT_RATE : ℚ := 1.6
def PAD_WEAR_RATE : ℚ := 0.00015
def TIRE_WEAR_RATE : ℚ := 0.0001

/-- The CLI arguments of `pro_sim.py` that the loop reads. -/
structure Args where
  laps : ℕ
  dt : ℚ
  failures : Bool
  deriving DecidableEq

/-- The three failure modes of `random.choice(["brake_overheat",
"battery_spike","sensor_glitch"])`. -/
inductive FailMode where
  | brakeOverheat
  | batterySpike
  | sensorGlitch
  deriving DecidableEq

/-- One row of `data/lap_features.csv` as written at lap completion. -/
structure LapSummary where
  lap : ℕ
  lap_time_sec : ℚ
  speed_mean : ℚ
  speed_max : ℚ
  brake_temp_max : ℚ
  soc_drop : ℚ
  deriving DecidableEq

/-- The loop state of `pro_sim.main` (GPS `gps_step` needs `sin`/`cos` and
feeds only the logged row; no claim concerns it, so `lat`/`lon` are
omitted).  `laps_data` records the rows appended to `lap_features.csv`, in
emission order. -/
structure ProState where
  t : ℚ
  lap : ℕ
  lap_start_t : ℚ
  dist : ℚ
  speed : ℚ
  accel : ℚ
  rpm : ℚ
  temp : ℚ
  soc : ℚ
  pad : ℚ
  tire : ℚ
  lap_dist_start : ℚ
  lap_soc_start : ℚ
  lap_temp_max : ℚ
  speed_hist : List ℚ
  laps_data : List LapSummary
  tick : ℕ
  deriving DecidableEq

/-- Random draws and transcendental oracle values consumed by one tick of
`pro_sim.main`:
`sin_val` is `sin(t*0.15)` (so `sin_val ∈ [-1,1]`),
`u ~ uniform(-0.05,0.05)` (driver variation),
`r_brake ~ random()` (corner braking),
`r_rpm ~ uniform(-150,150)`,
`temp_pow` is `(temp/120.0)**1.2` evaluated at the tick's updated
temperature (so `0 ≤ temp_pow`),
`fires = (random() < FAIL_PROB)`, `mode` the uniform choice of failure mode,
`r_fail ~ random()` scaling the chosen perturbation,
`jitter ~ uniform(-30,30)` (sensor glitch). -/
structure ProDraws where
  sin_val : ℚ
  u : ℚ
  r_brake : ℚ
  r_rpm : ℚ
  temp_pow : ℚ
  fires : Bool
  mode : FailMode
  r_fail : ℚ
  jitter : ℚ
  pub_ok : Bool
  deriving DecidableEq

/-- Python's `%` on nonnegative floats, used in `control_pattern` for
`tt % 28.0`. -/
def qmod (a b : ℚ) : ℚ := a - b * ⌊a / b⌋

/-- `control_pattern(tt)`: throttle oscillates (clamped to `[0,1]`); brake
fires on the `(tt % 28) > 23` window. -/
def control_pattern (d : ProDraws) (tt : ℚ) : ℚ × ℚ :=
  let throttle : ℚ := 0.55 + 0.4 * d.sin_val + d.u
  let throttle : ℚ := max 0 (min 1 throttle)
  let brake : ℚ := if 23 < qmod tt 28 then 0.6 + 0.3 * d.r_brake else 0
  (throttle, brake)

/-- The failure-injection block of `pro_sim.main` (lines 132-148): one mode,
chosen by `random.choice`, perturbs exactly one physical quantity and sets
the `(risk, reasons)` annotation; with failures off (or the event not
firing) it returns its inputs with the `(0, "nominal")` annotation.
Result order: `(speed, temp, soc, risk, reasons)`. -/
def pro_failure (failures fires : Bool) (mode : FailMode) (r_fail jitter : ℚ)
    (speed temp soc : ℚ) : ℚ × ℚ × ℚ × ℚ × String :=
  if failures && fires then
    match mode with
    | FailMode.brakeOverheat =>
        (speed, temp + 30 + 40 * r_fail, soc, 0.9, ("random_failure: brake_overheat"))
    | FailMode.batterySpike =>
        (speed, temp, max 0 (soc - (5 + 8 * r_fail)), 0.7, ("random_failure: battery_spike"))
    | FailMode.sensorGlitch =>
        (max 0 (speed + jitter), temp, soc, 0.5, ("random_failure: sensor_glitch"))
  else (speed, temp, soc, 0, ("nominal"))

/-- `np.mean` of a nonempty speed history (the `if speed_hist else 0.0`
guard of the source is kept by the caller). -/
def qmean (l : List ℚ) : ℚ := l.sum / l.length

/-- `np.max` of a speed history (`0` on `[]`, which the caller guards). -/
def qlistMax : List ℚ → ℚ
  | [] => 0
  | h :: tl => tl.foldl max h

/-- One iteration of the `while` loop of `pro_sim.main`: control pattern,
longitudinal dynamics with drag and the `MAX_SPEED` cap, distance, rpm,
thermal update, battery/pad/tire wear, optional failure injection, the risk
heuristic, per-lap aggregation and the lap-completion block, then `t`/`tick`
advance.  Returns the new state together with the `(risk, reasons)` values
written to the row (they are not part of the loop-carried state). -/
def pro_tick (a : Args) (d : ProDraws) (s : ProState) : ProState × ℚ × String :=
  let tb : ℚ × ℚ := control_pattern d s.t
  let throttle : ℚ := tb.1
  let brake : ℚ := tb.2
  let a_plus : ℚ := throttle * MAX_ACCEL
  let a_minus : ℚ := brake * MAX_BRAKE
  let accel : ℚ := a_plus - a_minus
  let speed_mps : ℚ := max 0 (s.speed * 1000 / 3600 + accel * a.dt)
  let drag : ℚ := 0.00035 * speed_mps ^ 2
  let speed_mps : ℚ := max 0 (speed_mps - drag)
  let speed : ℚ := min MAX_SPEED (speed_mps * 3.6)
  let d_step : ℚ := speed_mps * a.dt
  let dist : ℚ := s.dist + d_step
  let speed_hist : List ℚ := s.speed_hist ++ [speed]
  let rpm : ℚ := max 700 (35 * speed + d.r_rpm)
  let temp : ℚ := max 20 (s.temp - TEMP_COOL_RATE)
  let temp : ℚ :=
    if 0.05 < brake ∨ 0.85 < throttle ∨ 160 < speed
    then temp + TEMP_HEAT_RATE * (0.5 + brake + 0.4 * throttle) else temp
  let soc_drop : ℚ := BASE_SOC_DROP * (1 + (speed / 120) ^ 2 + d.temp_pow)
  let soc : ℚ := max 0 (s.soc - soc_drop * 100)
  let pad : ℚ := max 0 (s.pad - PAD_WEAR_RATE * (brake + 0.3 * speed / 200))
  let tire : ℚ :=
    max 0 (s.tire - TIRE_WEAR_RATE * (speed / 220 + |accel| / MAX_BRAKE))
  let fr : ℚ × ℚ × ℚ × ℚ × String :=
    pro_failure a.failures d.fires d.mode d.r_fail d.jitter speed temp soc
  let speed : ℚ := fr.1
  let temp : ℚ := fr.2.1
  let soc : ℚ := fr.2.2.1
  let frisk : ℚ := fr.2.2.2.1
  let risk : ℚ :=
    max frisk (min 1 (0.4 * (temp / 120) + 0.5 * (1 - pad) + 0.25 * (1 - tire)))
  let reasons : String := fr.2.2.2.2
  let lap_temp_max : ℚ := max s.lap_temp_max temp
  if LAP_M ≤ dist - s.lap_dist_start then
    let lap_time : ℚ := s.t - s.lap_start_t
    let speed_mean : ℚ := if speed_hist = [] then 0 else qmean speed_hist
    let speed_max : ℚ := if speed_hist = [] then 0 else qlistMax speed_hist
    let soc_drop2 : ℚ := max 0 (s.lap_soc_start - soc)
    let summ : LapSummary :=
      ⟨s.lap, roundTo 2 lap_time, roundTo 2 speed_mean, roundTo 2 speed_max,
       roundTo 2 lap_temp_max, roundTo 2 soc_drop2⟩
    (⟨s.t + a.dt, s.lap + 1, s.t, dist, speed, accel, rpm, temp, soc, pad, tire,
      dist, soc, temp, [], s.laps_data ++ [summ], s.tick + 1⟩, risk, reasons)
  else
    (⟨s.t + a.dt, s.lap, s.lap_start_t, dist, speed, accel, rpm, temp, soc, pad,
      tire, s.lap_dist_start, s.lap_soc_start, lap_temp_max, speed_hist,
      s.laps_data, s.tick + 1⟩, risk, reasons)

/-- The loop guard of `pro_sim.main` (line 99):
`while lap <= args.laps and soc > 3.0 and pad > 0.05 and tire > 0.05`. -/
def pro_guard (a : Args) (s : ProState) : Prop :=
  s.lap ≤ a.laps ∧ 3 < s.soc ∧ 0.05 < s.pad ∧ 0.05 < s.tire

instance (a : Args) (s : ProState) : Decidable (pro_guard a s) := by
  unfold pro_guard; infer_instance

/-- The guarded loop of `pro_sim.main`, fuel-bounded: ticks run while the
guard holds; once the guard fails the state is final.  Draws are indexed by
the tick counter so runs of different lengths over one stream agree on
their common steps. -/
def pro_run (a : Args) (ds : ℕ → ProDraws) : ℕ → ProState → ProState
  | 0, s => s
  | Nat.succ n, s =>
      if pro_guard a s then pro_run a ds n (pro_tick a (ds s.tick) s).1 else s

/-- Initial loop state of `pro_sim.main`. -/
def pro_init : ProState :=
  ⟨0, 1, 0, 0, 0, 0, 1200, 60, 100, 1, 1, 0, 100, 60, [], [], 0⟩

/-- `mqtt_client(host, port, topic)` of `pro_sim.py` (lines 33-36): the
`connect` call is NOT wrapped in try/except, so a connect failure raises out
of `main`. -/
def pro_mqtt_client (connect_ok : Bool) : Except String Unit :=
  if connect_ok then Except.ok () else Except.error ("connect refused")

/-- `pro_sim.main`: CSV init, MQTT client construction (whose connect
failure propagates), then the guarded tick loop.  Per-tick publishing is
wrapped in `try/except: pass` and so never reaches the state. -/
def pro_main (connect_ok : Bool) (a : Args) (ds : ℕ → ProDraws) (n : ℕ) :
    Except String ProState :=
  match pro_mqtt_client connect_ok with
  | Except.error e => Except.error e
  | Except.ok _ => Except.ok (pro_run a ds n pro_init)

end ProSim

namespace SrcSim

/-- Config of `src/src/simulator.py` / `simulator_backup.py`. -/
structure SrcCfg where
  temp_max_C : ℚ
  brake_wear_threshold : ℚ
  deriving DecidableEq

/-- `risk_and_reason(temp_c, pad_frac)` from `src/src/simulator.py`. -/
def risk_and_reason (c : SrcCfg) (temp_c pad_frac : ℚ) : ℚ × List String :=
  let rt : ℚ :=
    if c.temp_max_C < temp_c then 0.6 * min ((temp_c - c.temp_max_C) / 30) 1
    else if c.temp_max_C - 10 < temp_c then 0.3 else 0
  let st : List String :=
    if c.temp_max_C < temp_c then
      [("temperature high (") ++ fmtDec 1 temp_c ++ ("°C>") ++ fmtDec 1 c.temp_max_C ++ ("°C)")]
    else if c.temp_max_C - 10 < temp_c then
      [("temperature nearing limit (") ++ fmtDec 1 temp_c ++ ("°C)")] else []
  let rp : ℚ :=
    if pad_frac < c.brake_wear_threshold then
      0.5 * min ((c.brake_wear_threshold - pad_frac) / 0.3) 1 else 0
  let sp : List String :=
    if pad_frac < c.brake_wear_threshold then
      [("brake pad low (") ++ fmtDec 2 pad_frac ++ ("<") ++ fmtDec 1 c.brake_wear_threshold ++ (")")]
    else []
  let risk : ℚ := max 0 (min 1 (rt + rp))
  let reasons : List String := st ++ sp
  let reasons : List String := if reasons = [] then [("nominal")] else reasons
  (risk, reasons)

/-- `risk_and_reason(temp_c, pad_frac, battery, spd)` from
`src/src/simulator_backup.py` (adds low-battery and overspeed conditions). -/
def risk_and_reason_backup (c : SrcCfg) (temp_c pad_frac battery spd : ℚ) :
    ℚ × List String :=
  let rt : ℚ :=
    if c.temp_max_C < temp_c then 0.6 * min ((temp_c - c.temp_max_C) / 30) 1
    else if c.temp_max_C - 10 < temp_c then 0.3 else 0
  let st : List String :=
    if c.temp_max_C < temp_c then
      [("temperature high (") ++ fmtDec 1 temp_c ++ ("°C>") ++ fmtDec 1 c.temp_max_C ++ ("°C)")]
    else if c.temp_max_C - 10 < temp_c then
      [("temperature nearing limit (") ++ fmtDec 1 temp_c ++ ("°C)")] else []
  let rp : ℚ :=
    if pad_frac < c.brake_wear_threshold then
      0.5 * min ((c.brake_wear_threshold - pad_frac) / 0.3) 1 else 0
  let sp : List String :=
    if pad_frac < c.brake_wear_threshold then
      [("brake pad low (") ++ fmtDec 2 pad_frac ++ ("<") ++ fmtDec 1 c.brake_wear_threshold ++ (")")]
    else []
  let rb : ℚ := if battery < 15 then 0.4 else 0
  let sb : List String :=
    if battery < 15 then [("battery low (") ++ fmtDec 1 battery ++ ("%)")] else []
  let rs : ℚ := if 230 < spd then 0.3 else 0
  let ss : List String :=
    if 230 < spd then [("overspeed (") ++ fmtDec 0 spd ++ (" km/h)")] else []
  let risk : ℚ := max 0 (min 1 (rt + rp + rb + rs))
  let reasons : List String := st ++ sp ++ sb ++ ss
  let reasons : List String := if reasons = [] then [("nominal")] else reasons
  (risk, reasons)

end SrcSim

-- Concrete instances used by the scenario theorems, witnesses and
-- counterexamples below.

/-- The lap-counter / emitted-summaries invariant of `pro_sim.main`: the
emitted lap numbers are exactly `1, 2, ..., k` in order, and the current lap
counter is `k + 1`. -/
def laps_inv (s : ProSim.ProState) : Prop :=
  s.laps_data.map (fun x => x.lap) = List.range' 1 s.laps_data.length
    ∧ s.lap = s.laps_data.length + 1

/-- Two draw records for `src/sim/simulator.py` that agree on everything the
state update reads, differing at most in the publish outcome. -/
def sim_draws_eq_except_pub (d d' : SimLoop.SimDraws) : Prop :=
  d.target_fast = d'.target_fast ∧ d.target_slow = d'.target_slow
    ∧ d.blend = d'.blend ∧ d.heat_rand = d'.heat_rand
    ∧ d.fail_fires = d'.fail_fires ∧ d.fail_temp = d'.fail_temp
    ∧ d.fail_soc = d'.fail_soc ∧ d.cool_rand = d'.cool_rand

/-- Two draw records for `pro_sim.main` that agree on everything the state
update reads, differing at most in the publish outcome. -/
def pro_draws_eq_except_pub (d d' : ProSim.ProDraws) : Prop :=
  d.sin_val = d'.sin_val ∧ d.u = d'.u ∧ d.r_brake = d'.r_brake
    ∧ d.r_rpm = d'.r_rpm ∧ d.temp_pow = d'.temp_pow ∧ d.fires = d'.fires
    ∧ d.mode = d'.mode ∧ d.r_fail = d'.r_fail ∧ d.jitter = d'.jitter

def cfg5 : SimLoop.SimCfg := ⟨30, 95, 0.2, 15, 5000, 1⟩

def cex_d : SimLoop.SimDraws := ⟨140, 60, 0.1, 1, true, 20, 2, 5, true⟩

def cex_s : SimLoop.SimState := ⟨1, 0, 0, 0, 0, 1, 1, 40, 0, 0, 0⟩

def wit_d : SimLoop.SimDraws := ⟨140, 60, 0.1, 1, false, 20, 2, 5, true⟩

def w1 : SimLoop.SimState := ⟨1, 0, 10, 10, 0, 50, 0.5, 80, 0.1, 0, 0⟩

def w2 : SimLoop.SimState := ⟨7, 42, 250, 0, -3, 50, 0.5, 80, 0.9, 4000, 99999⟩

def pro_args0 : ProSim.Args := ⟨10, 0.2, false⟩

def pd0 : ProSim.ProDraws :=
  ⟨0, 0, 0, 0, 0, false, ProSim.FailMode.brakeOverheat, 0, 0, true⟩

def pdX : ProSim.ProDraws :=
  ⟨0, 0, 0, 0, 0, true, ProSim.FailMode.batterySpike, 0.5, 12, false⟩

def c2s : ProSim.ProState :=
  ⟨100, 1, 0, 1000, 240, 0, 8000, 60, 50, 0.5, 0.5, 0, 50, 60, [], [], 17⟩

def c3s : ProSim.ProState :=
  ⟨500, 3, 400, 5299, 240, 0, 8000, 60, 50, 0.9, 0.9, 0, 50, 60, [200], [], 30⟩

def s7 : ProSim.ProState :=
  ⟨0, 1, 0, 0, 0, 0, 1200, 60, 3.01, 1, 1, 0, 3.01, 60, [], [], 0⟩

def dsA : ℕ → SimLoop.SimDraws := fun _ => ⟨150, 70, 0.1, 1, false, 20, 1, 6, true⟩

def dsB : ℕ → SimLoop.SimDraws := fun _ => ⟨150, 70, 0.1, 1, false, 20, 1, 6, false⟩

lemma append3_ne_of_lt (p x s t : String) (h : t.length < p.length) :
    p ++ x ++ s ≠ t := by
  intro e
  have h2 := congrArg String.length e
  rw [String.length_append, String.length_append] at h2
  omega

lemma append2_ne_of_lt (p x t : String) (h : t.length < p.length) :
    p ++ x ≠ t := by
  intro e
  have h2 := congrArg String.length e
  rw [String.length_append] at h2
  omega

lemma pf_speed_nonneg (f fi : Bool) (m : ProSim.FailMode) (r j sp tm so : ℚ)
    (h : 0 ≤ sp) : 0 ≤ (ProSim.pro_failure f fi m r j sp tm so).1 := by
  unfold ProSim.pro_failure
  split_ifs
  · cases m
    · simpa using h
    · simpa using h
    · simp only []
      exact le_max_left _ _
  · simpa using h

lemma pf_speed_le (f fi : Bool) (m : ProSim.FailMode) (r j sp tm so : ℚ)
    (h : sp ≤ 240) (hc : f = false ∨ fi = false ∨ m ≠ ProSim.FailMode.sensorGlitch) :
    (ProSim.pro_failure f fi m r j sp tm so).1 ≤ 240 := by
  unfold ProSim.pro_failure
  split_ifs with hf
  · rw [Bool.and_eq_true] at hf
    cases m
    · simpa using h
    · simpa using h
    · rcases hc with h1 | h1 | h1
      · rw [h1] at hf; simp at hf
      · rw [h1] at hf; simp at hf
      · exact absurd rfl h1
  · simpa using h

lemma pf_soc_le (f fi : Bool) (m : ProSim.FailMode) (r j sp tm so : ℚ)
    (hso : 0 ≤ so) (hr : 0 ≤ r) :
    (ProSim.pro_failure f fi m r j sp tm so).2.2.1 ≤ so := by
  unfold ProSim.pro_failure
  split_ifs
  · cases m
    · simp
    · simp only []
      exact max_le hso (by linarith)
    · simp
  · simp

lemma pf_soc_nonneg (f fi : Bool) (m : ProSim.FailMode) (r j sp tm so : ℚ)
    (hso : 0 ≤ so) : 0 ≤ (ProSim.pro_failure f fi m r j sp tm so).2.2.1 := by
  unfold ProSim.pro_failure
  split_ifs
  · cases m
    · simpa using hso
    · simp only []
      exact le_max_left _ _
    · simpa using hso
  · simpa using hso

lemma pf_temp_ge (f fi : Bool) (m : ProSim.FailMode) (r j sp tm so : ℚ)
    (hr : 0 ≤ r) : tm ≤ (ProSim.pro_failure f fi m r j sp tm so).2.1 := by
  unfold ProSim.pro_failure
  split_ifs
  · cases m
    · simp only []
      linarith
    · simp
    · simp
  · simp

lemma pro_run_frozen (a : ProSim.Args) (ds : ℕ → ProSim.ProDraws)
    (s : ProSim.ProState) (h : ¬ ProSim.pro_guard a s) :
    ∀ n, ProSim.pro_run a ds n s = s := by
  intro n
  cases n
  · rfl
  · simp only [ProSim.pro_run, if_neg h]

lemma pro_run_add (a : ProSim.Args) (ds : ℕ → ProSim.ProDraws) :
    ∀ (n m : ℕ) (s : ProSim.ProState),
      ProSim.pro_run a ds (n + m) s
        = ProSim.pro_run a ds m (ProSim.pro_run a ds n s) := by
  intro n
  induction n with
  | zero => intro m s; rw [Nat.zero_add]; rfl
  | succ k ih =>
      intro m s
      have he : k + 1 + m = (k + m) + 1 := by omega
      by_cases hg : ProSim.pro_guard a s
      · rw [he]
        show (if ProSim.pro_guard a s then
            ProSim.pro_run a ds (k + m) (ProSim.pro_tick a (ds s.tick) s).1 else s)
          = ProSim.pro_run a ds m (ProSim.pro_run a ds (k + 1) s)
        rw [if_pos hg]
        have h2 : ProSim.pro_run a ds (k + 1) s
            = ProSim.pro_run a ds k (ProSim.pro_tick a (ds s.tick) s).1 := by
          show (if ProSim.pro_guard a s then
              ProSim.pro_run a ds k (ProSim.pro_tick a (ds s.tick) s).1 else s)
            = ProSim.pro_run a ds k (ProSim.pro_tick a (ds s.tick) s).1
          rw [if_pos hg]
        rw [h2, ih]
      · rw [pro_run_frozen a ds s hg, pro_run_frozen a ds s hg]
        exact (pro_run_frozen a ds s hg m).symm

lemma pro_tick_roll_iff (a : ProSim.Args) (d : ProSim.ProDraws) (s : ProSim.ProState) :
    (ProSim.LAP_M ≤ (ProSim.pro_tick a d s).1.dist - s.lap_dist_start →
      ((ProSim.pro_tick a d s).1.laps_data).map (fun x => x.lap)
          = s.laps_data.map (fun x => x.lap) ++ [s.lap]
      ∧ ((ProSim.pro_tick a d s).1.laps_data).length = s.laps_data.length + 1
      ∧ (ProSim.pro_tick a d s).1.lap = s.lap + 1
      ∧ (ProSim.pro_tick a d s).1.dist - (ProSim.pro_tick a d s).1.lap_dist_start = 0)
    ∧ (¬ ProSim.LAP_M ≤ (ProSim.pro_tick a d s).1.dist - s.lap_dist_start →
      (ProSim.pro_tick a d s).1.laps_data = s.laps_data
      ∧ (ProSim.pro_tick a d s).1.lap = s.lap
      ∧ (ProSim.pro_tick a d s).1.lap_dist_start = s.lap_dist_start) := by
  simp only [ProSim.pro_tick, ProSim.control_pattern]
  set th : ℚ := max 0 (min 1 (0.55 + 0.4 * d.sin_val + d.u)) with hth
  set br : ℚ := if 23 < ProSim.qmod s.t 28 then 0.6 + 0.3 * d.r_brake else 0 with hbr
  set ac : ℚ := th * ProSim.MAX_ACCEL - br * ProSim.MAX_BRAKE with hac
  set v1 : ℚ := max 0 (s.speed * 1000 / 3600 + ac * a.dt) with hv1
  set sm : ℚ := max 0 (v1 - 0.00035 * v1 ^ 2) with hsm
  by_cases hroll : ProSim.LAP_M ≤ s.dist + sm * a.dt - s.lap_dist_start
  · rw [if_pos hroll]
    constructor
    · intro _
      refine ⟨?_, ?_, rfl, by ring⟩
      · simp [List.map_append]
      · simp [List.length_append]
    · intro hn
      exact absurd hroll hn
  · rw [if_neg hroll]
    constructor
    · intro hc
      exact absurd hc hroll
    · intro _
      exact ⟨rfl, rfl, rfl⟩

lemma pro_tick_laps_inv (a : ProSim.Args) (d : ProSim.ProDraws) (s : ProSim.ProState)
    (h : laps_inv s) : laps_inv (ProSim.pro_tick a d s).1 := by
  obtain ⟨h1, h2⟩ := h
  unfold laps_inv
  simp only [ProSim.pro_tick, ProSim.control_pattern]
  set th : ℚ := max 0 (min 1 (0.55 + 0.4 * d.sin_val + d.u)) with hth
  set br : ℚ := if 23 < ProSim.qmod s.t 28 then 0.6 + 0.3 * d.r_brake else 0 with hbr
  set ac : ℚ := th * ProSim.MAX_ACCEL - br * ProSim.MAX_BRAKE with hac
  set v1 : ℚ := max 0 (s.speed * 1000 / 3600 + ac * a.dt) with hv1
  set sm : ℚ := max 0 (v1 - 0.00035 * v1 ^ 2) with hsm
  by_cases hroll : ProSim.LAP_M ≤ s.dist + sm * a.dt - s.lap_dist_start
  · rw [if_pos hroll]
    constructor
    · simp only [List.map_append, List.length_append, List.map_cons, List.map_nil,
        List.length_cons, List.length_nil, h1]
      have hr := @List.range'_concat 1 1 s.laps_data.length
      rw [hr]
      congr 1
      simp only [List.cons.injEq, and_true]
      omega
    · simp only [List.length_append, List.length_cons, List.length_nil]
      omega
  · rw [if_neg hroll]
    exact ⟨h1, h2⟩

lemma pro_run_laps_inv (a : ProSim.Args) (ds : ℕ → ProSim.ProDraws) :
    ∀ (n : ℕ) (s : ProSim.ProState), laps_inv s
      → laps_inv (ProSim.pro_run a ds n s) := by
  intro n
  induction n with
  | zero => intro s h; exact h
  | succ k ih =>
      intro s h
      show laps_inv (if ProSim.pro_guard a s then
        ProSim.pro_run a ds k (ProSim.pro_tick a (ds s.tick) s).1 else s)
      split_ifs
      · exact ih _ (pro_tick_laps_inv a _ s h)
      · exact h

lemma pro_tick_laps_extend (a : ProSim.Args) (d : ProSim.ProDraws)
    (s : ProSim.ProState) :
    ∃ l, (ProSim.pro_tick a d s).1.laps_data = s.laps_data ++ l := by
  simp only [ProSim.pro_tick, ProSim.control_pattern]
  set th : ℚ := max 0 (min 1 (0.55 + 0.4 * d.sin_val + d.u)) with hth
  set br : ℚ := if 23 < ProSim.qmod s.t 28 then 0.6 + 0.3 * d.r_brake else 0 with hbr
  set ac : ℚ := th * ProSim.MAX_ACCEL - br * ProSim.MAX_BRAKE with hac
  set v1 : ℚ := max 0 (s.speed * 1000 / 3600 + ac * a.dt) with hv1
  set sm : ℚ := max 0 (v1 - 0.00035 * v1 ^ 2) with hsm
  by_cases hroll : ProSim.LAP_M ≤ s.dist + sm * a.dt - s.lap_dist_start
  · rw [if_pos hroll]
    exact ⟨_, rfl⟩
  · rw [if_neg hroll]
    exact ⟨[], (List.append_nil _).symm⟩

lemma pro_run_laps_extend (a : ProSim.Args) (ds : ℕ → ProSim.ProDraws) :
    ∀ (n : ℕ) (s : ProSim.ProState),
      ∃ l, (ProSim.pro_run a ds n s).laps_data = s.laps_data ++ l := by
  intro n
  induction n with
  | zero => intro s; exact ⟨[], (List.append_nil _).symm⟩
  | succ k ih =>
      intro s
      show ∃ l, (if ProSim.pro_guard a s then
          ProSim.pro_run a ds k (ProSim.pro_tick a (ds s.tick) s).1 else s).laps_data
        = s.laps_data ++ l
      split_ifs
      · obtain ⟨l1, hl1⟩ := ih (ProSim.pro_tick a (ds s.tick) s).1
        obtain ⟨l0, hl0⟩ := pro_tick_laps_extend a (ds s.tick) s
        exact ⟨l0 ++ l1, by rw [hl1, hl0, List.append_assoc]⟩
      · exact ⟨[], (List.append_nil _).symm⟩

lemma pro_tick_soc_step (a : ProSim.Args) (d : ProSim.ProDraws) (s : ProSim.ProState)
    (hpow : 0 ≤ d.temp_pow) (hrf : 0 ≤ d.r_fail) :
    (ProSim.pro_tick a d s).1.soc ≤ max 0 (s.soc - 0.04) := by
  simp only [ProSim.pro_tick, ProSim.control_pattern]
  set th : ℚ := max 0 (min 1 (0.55 + 0.4 * d.sin_val + d.u)) with hth
  set br : ℚ := if 23 < ProSim.qmod s.t 28 then 0.6 + 0.3 * d.r_brake else 0 with hbr
  set ac : ℚ := th * ProSim.MAX_ACCEL - br * ProSim.MAX_BRAKE with hac
  set v1 : ℚ := max 0 (s.speed * 1000 / 3600 + ac * a.dt) with hv1
  set sm : ℚ := max 0 (v1 - 0.00035 * v1 ^ 2) with hsm
  set sp0 : ℚ := min ProSim.MAX_SPEED (sm * 3.6) with hsp0
  have hd04 : (0.04 : ℚ)
      ≤ ProSim.BASE_SOC_DROP * (1 + (sp0 / 120) ^ 2 + d.temp_pow) * 100 := by
    have h1 : 0 ≤ (sp0 / 120) ^ 2 := sq_nonneg _
    have : (1:ℚ) ≤ 1 + (sp0 / 120) ^ 2 + d.temp_pow := by linarith
    norm_num [ProSim.BASE_SOC_DROP]
    nlinarith [this]
  have hin : max 0 (s.soc - ProSim.BASE_SOC_DROP * (1 + (sp0 / 120) ^ 2 + d.temp_pow) * 100)
      ≤ max 0 (s.soc - 0.04) :=
    max_le (le_max_left _ _) (le_max_of_le_right (by linarith))
  by_cases hroll : ProSim.LAP_M ≤ s.dist + sm * a.dt - s.lap_dist_start
  · rw [if_pos hroll]
    exact le_trans (pf_soc_le _ _ _ _ _ _ _ _ (le_max_left _ _) hrf) hin
  · rw [if_neg hroll]
    exact le_trans (pf_soc_le _ _ _ _ _ _ _ _ (le_max_left _ _) hrf) hin

lemma pro_run_soc_bound (a : ProSim.Args) (ds : ℕ → ProSim.ProDraws)
    (hd : ∀ k, 0 ≤ (ds k).temp_pow ∧ 0 ≤ (ds k).r_fail) :
    ∀ (n : ℕ) (s : ProSim.ProState),
      ¬ ProSim.pro_guard a (ProSim.pro_run a ds n s)
      ∨ (ProSim.pro_run a ds n s).soc ≤ s.soc - 0.04 * n := by
  intro n
  induction n with
  | zero =>
      intro s
      right
      show s.soc ≤ s.soc - 0.04 * ((0:ℕ) : ℚ)
      push_cast
      linarith
  | succ k ih =>
      intro s
      have hstep : ProSim.pro_run a ds (k + 1) s
          = ProSim.pro_run a ds 1 (ProSim.pro_run a ds k s) := pro_run_add a ds k 1 s
      rcases ih s with hg | hsoc
      · left
        rw [hstep, pro_run_frozen a ds _ hg]
        exact hg
      · by_cases hg : ProSim.pro_guard a (ProSim.pro_run a ds k s)
        · have h1 : ProSim.pro_run a ds 1 (ProSim.pro_run a ds k s)
              = (ProSim.pro_tick a (ds (ProSim.pro_run a ds k s).tick)
                  (ProSim.pro_run a ds k s)).1 := by
            show (if ProSim.pro_guard a (ProSim.pro_run a ds k s) then _ else _) = _
            rw [if_pos hg]
            rfl
          have h2 := pro_tick_soc_step a (ds (ProSim.pro_run a ds k s).tick)
            (ProSim.pro_run a ds k s) (hd _).1 (hd _).2
          rcases le_or_lt 0 ((ProSim.pro_run a ds k s).soc - 0.04) with hc | hc
          · right
            rw [hstep, h1]
            have : max 0 ((ProSim.pro_run a ds k s).soc - 0.04)
                = (ProSim.pro_run a ds k s).soc - 0.04 := max_eq_right hc
            rw [this] at h2
            push_cast
            linarith
          · left
            rw [hstep, h1]
            have h3 : max 0 ((ProSim.pro_run a ds k s).soc - 0.04) = 0 :=
              max_eq_left (by linarith)
            rw [h3] at h2
            intro hcon
            unfold ProSim.pro_guard at hcon
            linarith [hcon.2.1]
        · left
          rw [hstep, pro_run_frozen a ds _ hg]
          exact hg

lemma sim_tick_pub_irrel (c : SimLoop.SimCfg) (d d' : SimLoop.SimDraws)
    (s : SimLoop.SimState) (h : sim_draws_eq_except_pub d d') :
    SimLoop.sim_tick c d s = SimLoop.sim_tick c d' s := by
  obtain ⟨a1, a2, a3, a4, a5, a6, a7, a8, a9⟩ := d
  obtain ⟨b1, b2, b3, b4, b5, b6, b7, b8, b9⟩ := d'
  obtain ⟨h1, h2, h3, h4, h5, h6, h7, h8⟩ := h
  simp only at h1 h2 h3 h4 h5 h6 h7 h8
  subst h1; subst h2; subst h3; subst h4; subst h5; subst h6; subst h7; subst h8
  rfl

lemma pro_tick_pub_irrel (a : ProSim.Args) (d d' : ProSim.ProDraws)
    (s : ProSim.ProState) (h : pro_draws_eq_except_pub d d') :
    ProSim.pro_tick a d s = ProSim.pro_tick a d' s := by
  obtain ⟨a1, a2, a3, a4, a5, a6, a7, a8, a9, a10⟩ := d
  obtain ⟨b1, b2, b3, b4, b5, b6, b7, b8, b9, b10⟩ := d'
  obtain ⟨h1, h2, h3, h4, h5, h6, h7, h8, h9⟩ := h
  simp only at h1 h2 h3 h4 h5 h6 h7 h8 h9
  subst h1; subst h2; subst h3; subst h4; subst h5; subst h6; subst h7
  subst h8; subst h9
  rfl

lemma sim_run_pub_irrel (c : SimLoop.SimCfg) (ds ds' : ℕ → SimLoop.SimDraws)
    (h : ∀ k, sim_draws_eq_except_pub (ds k) (ds' k)) :
    ∀ (n : ℕ) (s : SimLoop.SimState),
      SimLoop.sim_run c ds n s = SimLoop.sim_run c ds' n s := by
  intro n
  induction n with
  | zero => intro s; rfl
  | succ k ih =>
      intro s
      show SimLoop.sim_run c ds k (SimLoop.sim_tick c (ds s.tick) s).1
        = SimLoop.sim_run c ds' k (SimLoop.sim_tick c (ds' s.tick) s).1
      rw [sim_tick_pub_irrel c (ds s.tick) (ds' s.tick) s (h s.tick)]
      exact ih _

lemma pro_run_pub_irrel (a : ProSim.Args) (ds ds' : ℕ → ProSim.ProDraws)
    (h : ∀ k, pro_draws_eq_except_pub (ds k) (ds' k)) :
    ∀ (n : ℕ) (s : ProSim.ProState),
      ProSim.pro_run a ds n s = ProSim.pro_run a ds' n s := by
  intro n
  induction n with
  | zero => intro s; rfl
  | succ k ih =>
      intro s
      show (if ProSim.pro_guard a s then
          ProSim.pro_run a ds k (ProSim.pro_tick a (ds s.tick) s).1 else s)
        = (if ProSim.pro_guard a s then
          ProSim.pro_run a ds' k (ProSim.pro_tick a (ds' s.tick) s).1 else s)
      split_ifs
      · rw [pro_tick_pub_irrel a (ds s.tick) (ds' s.tick) s (h s.tick)]
        exact ih _
      · rfl

/-- C1 (amended): after a tick of `src/sim/simulator.py` on which the
failure event does NOT fire, every bounded scalar field is inside its
declared range (speed in `[0,280]`, SOC in `[0,100]`, brake temperature in
`[AMBIENT,160]`, pad fraction in `[0.05,1]`, tire wear in `[0,1]`); and in
`pro_sim.py` SOC stays in `[0,100]`, pad and tire (remaining fractions) in
`[0,1]`, temperature at least 20, speed nonnegative and — absent a firing
sensor-glitch failure — at most `MAX_SPEED = 240`.  The original claim
(bounds hold on failure ticks too) is refuted by
`c1_failure_tick_soc_below_zero`: the failure perturbation runs after the
clamps, so SOC can leave its range. -/
theorem c1_bounded_fields_amended :
    (∀ (c : SimLoop.SimCfg) (d : SimLoop.SimDraws) (s : SimLoop.SimState),
      d.fail_fires = false → 0 ≤ c.TICK_SEC → c.AMBIENT ≤ 155 → 0 ≤ d.cool_rand →
      s.battery_soc ≤ 100 → 0 ≤ s.tire_wear →
      (0 ≤ (SimLoop.sim_tick c d s).1.speed_kph
        ∧ (SimLoop.sim_tick c d s).1.speed_kph ≤ 280)
      ∧ (0 ≤ (SimLoop.sim_tick c d s).1.battery_soc
        ∧ (SimLoop.sim_tick c d s).1.battery_soc ≤ 100)
      ∧ (c.AMBIENT ≤ (SimLoop.sim_tick c d s).1.brake_temp
        ∧ (SimLoop.sim_tick c d s).1.brake_temp ≤ 160)
      ∧ (0.05 ≤ (SimLoop.sim_tick c d s).1.brake_pad
        ∧ (SimLoop.sim_tick c d s).1.brake_pad ≤ 1)
      ∧ (0 ≤ (SimLoop.sim_tick c d s).1.tire_wear
        ∧ (SimLoop.sim_tick c d s).1.tire_wear ≤ 1))
    ∧ (∀ (a : ProSim.Args) (d : ProSim.ProDraws) (s : ProSim.ProState),
      0 ≤ d.temp_pow → 0 ≤ d.r_fail → 0 ≤ d.r_brake →
      0 ≤ s.soc → s.soc ≤ 100 → 0 ≤ s.pad → s.pad ≤ 1 → 0 ≤ s.tire → s.tire ≤ 1 →
      (0 ≤ (ProSim.pro_tick a d s).1.soc ∧ (ProSim.pro_tick a d s).1.soc ≤ 100)
      ∧ (0 ≤ (ProSim.pro_tick a d s).1.pad ∧ (ProSim.pro_tick a d s).1.pad ≤ 1)
      ∧ (0 ≤ (ProSim.pro_tick a d s).1.tire ∧ (ProSim.pro_tick a d s).1.tire ≤ 1)
      ∧ 20 ≤ (ProSim.pro_tick a d s).1.temp
      ∧ 0 ≤ (ProSim.pro_tick a d s).1.speed
      ∧ ((a.failures = false ∨ d.fires = false ∨ d.mode ≠ ProSim.FailMode.sensorGlitch)
          → (ProSim.pro_tick a d s).1.speed ≤ 240)) := by
  constructor
  · intro c d s hf ht hA hcool hsoc htire
    simp only [SimLoop.sim_tick, SimLoop.sim_failure, hf, Bool.false_eq_true, if_false]
    set tgt : ℚ := if SimLoop.in_brake_zone
        (if 0 < c.LAP_LEN then s.lap_distance / c.LAP_LEN else 0) = true
      then d.target_slow else d.target_fast with htgt
    set v : ℚ := max 0 (min 280 (s.speed_kph + (tgt - s.speed_kph) * d.blend)) with hv
    have hv0 : 0 ≤ v := le_max_left _ _
    have hv280 : v ≤ 280 := max_le (by norm_num) (min_le_left _ _)
    have h1 : 0 ≤ 0.005 * c.TICK_SEC := mul_nonneg (by norm_num) ht
    have h2 : 0 ≤ 0.00002 * v ^ 2 * (c.TICK_SEC / 1) :=
      mul_nonneg (mul_nonneg (by norm_num) (sq_nonneg v)) (by linarith)
    have h3 : 0 ≤ max 0 (((v - s.prev_speed_kph) / 3.6) / max 1 c.TICK_SEC) * 0.01 :=
      mul_nonneg (le_max_left _ _) (by norm_num)
    have hinc : 0 ≤ 0.0002 * (v / 150) :=
      mul_nonneg (by norm_num) (div_nonneg hv0 (by norm_num))
    refine ⟨⟨hv0, hv280⟩, ⟨le_max_left _ _, max_le (by norm_num) (by linarith)⟩,
      ?_, ⟨le_max_left _ _, max_le (by norm_num) (min_le_left _ _)⟩,
      ⟨le_min (by norm_num) (by linarith), min_le_left _ _⟩⟩
    by_cases hroll : c.LAP_LEN ≤ s.lap_distance + v / 3.6 * c.TICK_SEC
    · rw [if_pos hroll]
      constructor
      · exact le_trans (by linarith) (le_max_left _ _)
      · refine max_le (by linarith) ?_
        have hclamp : max c.AMBIENT (min 160 (if SimLoop.in_brake_zone
            (if 0 < c.LAP_LEN then (s.lap_distance + v / 3.6 * c.TICK_SEC) / c.LAP_LEN
             else 0) = true
            then s.brake_temp + 0.8 * (v / 100) + d.heat_rand
            else s.brake_temp + -(s.brake_temp - (c.AMBIENT + 5)) * 0.04)) ≤ 160 :=
          max_le (by linarith) (min_le_left _ _)
        linarith
    · rw [if_neg hroll]
      exact ⟨le_max_left _ _, max_le (by linarith) (min_le_left _ _)⟩
  · intro a d s hpow hrf hrb hs0 hs100 hp0 hp1 ht0 ht1
    simp only [ProSim.pro_tick, ProSim.control_pattern]
    set th : ℚ := max 0 (min 1 (0.55 + 0.4 * d.sin_val + d.u)) with hth
    set br : ℚ := if 23 < ProSim.qmod s.t 28 then 0.6 + 0.3 * d.r_brake else 0 with hbr
    have hbr0 : 0 ≤ br := by
      rw [hbr]; split_ifs
      · linarith
      · exact le_refl 0
    have hth0 : 0 ≤ th := le_max_left _ _
    set ac : ℚ := th * ProSim.MAX_ACCEL - br * ProSim.MAX_BRAKE with hac
    set v1 : ℚ := max 0 (s.speed * 1000 / 3600 + ac * a.dt) with hv1
    set sm : ℚ := max 0 (v1 - 0.00035 * v1 ^ 2) with hsm
    have hsm0 : 0 ≤ sm := le_max_left _ _
    set sp0 : ℚ := min ProSim.MAX_SPEED (sm * 3.6) with hsp0
    have hsp00 : 0 ≤ sp0 :=
      le_min (by norm_num [ProSim.MAX_SPEED]) (mul_nonneg hsm0 (by norm_num))
    have hsp240 : sp0 ≤ 240 :=
      le_trans (min_le_left _ _) (by norm_num [ProSim.MAX_SPEED])
    have hdrop : 0 ≤ ProSim.BASE_SOC_DROP * (1 + (sp0 / 120) ^ 2 + d.temp_pow) * 100 := by
      have h1 : 0 ≤ (sp0 / 120) ^ 2 := sq_nonneg _
      have h2 : 0 ≤ (1 + (sp0 / 120) ^ 2 + d.temp_pow) := by linarith
      have h3 : (0:ℚ) ≤ ProSim.BASE_SOC_DROP := by norm_num [ProSim.BASE_SOC_DROP]
      positivity
    have hpadrate : 0 ≤ ProSim.PAD_WEAR_RATE * (br + 0.3 * sp0 / 200) := by
      have h1 : 0 ≤ 0.3 * sp0 / 200 := by positivity
      have h2 : (0:ℚ) ≤ ProSim.PAD_WEAR_RATE := by norm_num [ProSim.PAD_WEAR_RATE]
      have h3 : 0 ≤ br + 0.3 * sp0 / 200 := by linarith
      positivity
    have htirerate : 0 ≤ ProSim.TIRE_WEAR_RATE * (sp0 / 220 + |ac| / ProSim.MAX_BRAKE) := by
      have h1 : 0 ≤ sp0 / 220 := by positivity
      have h2 : 0 ≤ |ac| / ProSim.MAX_BRAKE := by
        have h4 := abs_nonneg ac
        norm_num [ProSim.MAX_BRAKE]
        linarith
      have h3 : (0:ℚ) ≤ ProSim.TIRE_WEAR_RATE := by norm_num [ProSim.TIRE_WEAR_RATE]
      positivity
    have hheat : 20 ≤ (if 0.05 < br ∨ 0.85 < th ∨ 160 < sp0
        then max 20 (s.temp - ProSim.TEMP_COOL_RATE)
          + ProSim.TEMP_HEAT_RATE * (0.5 + br + 0.4 * th)
        else max 20 (s.temp - ProSim.TEMP_COOL_RATE)) := by
      have hg : 0 ≤ ProSim.TEMP_HEAT_RATE * (0.5 + br + 0.4 * th) := by
        have h4 : (0:ℚ) ≤ ProSim.TEMP_HEAT_RATE := by norm_num [ProSim.TEMP_HEAT_RATE]
        have h5 : 0 ≤ 0.5 + br + 0.4 * th := by linarith
        positivity
      split_ifs
      · linarith [le_max_left (20:ℚ) (s.temp - ProSim.TEMP_COOL_RATE)]
      · exact le_max_left _ _
    have hsocin0 : (0:ℚ) ≤ max 0
        (s.soc - ProSim.BASE_SOC_DROP * (1 + (sp0 / 120) ^ 2 + d.temp_pow) * 100) :=
      le_max_left _ _
    have hsocin100 : max 0
        (s.soc - ProSim.BASE_SOC_DROP * (1 + (sp0 / 120) ^ 2 + d.temp_pow) * 100) ≤ 100 :=
      max_le (by norm_num) (by linarith)
    by_cases hroll : ProSim.LAP_M ≤ s.dist + sm * a.dt - s.lap_dist_start
    · rw [if_pos hroll]
      refine ⟨⟨pf_soc_nonneg _ _ _ _ _ _ _ _ hsocin0,
          le_trans (pf_soc_le _ _ _ _ _ _ _ _ hsocin0 hrf) hsocin100⟩,
        ⟨le_max_left _ _, max_le (by norm_num) (by linarith)⟩,
        ⟨le_max_left _ _, max_le (by norm_num) (by linarith)⟩,
        le_trans hheat (pf_temp_ge _ _ _ _ _ _ _ _ hrf),
        pf_speed_nonneg _ _ _ _ _ _ _ _ hsp00,
        fun hc => pf_speed_le _ _ _ _ _ _ _ _ hsp240 hc⟩
    · rw [if_neg hroll]
      refine ⟨⟨pf_soc_nonneg _ _ _ _ _ _ _ _ hsocin0,
          le_trans (pf_soc_le _ _ _ _ _ _ _ _ hsocin0 hrf) hsocin100⟩,
        ⟨le_max_left _ _, max_le (by norm_num) (by linarith)⟩,
        ⟨le_max_left _ _, max_le (by norm_num) (by linarith)⟩,
        le_trans hheat (pf_temp_ge _ _ _ _ _ _ _ _ hrf),
        pf_speed_nonneg _ _ _ _ _ _ _ _ hsp00,
        fun hc => pf_speed_le _ _ _ _ _ _ _ _ hsp240 hc⟩

/-- Witness for `c1_bounded_fields_amended` at concrete inputs. -/
theorem c1_bounded_fields_amended_witness :
    (0 ≤ (SimLoop.sim_tick cfg5 wit_d cex_s).1.battery_soc
      ∧ (SimLoop.sim_tick cfg5 wit_d cex_s).1.battery_soc ≤ 100)
    ∧ (20 ≤ (ProSim.pro_tick pro_args0 pd0 c2s).1.temp
      ∧ 0 ≤ (ProSim.pro_tick pro_args0 pd0 c2s).1.soc) :=
  ⟨(c1_bounded_fields_amended.1 cfg5 wit_d cex_s rfl (by norm_num [cfg5]) (by norm_num [cfg5])
      (by norm_num [wit_d]) (by norm_num [cex_s]) (by norm_num [cex_s])).2.1,
   (c1_bounded_fields_amended.2 pro_args0 pd0 c2s (by norm_num [pd0]) (by norm_num [pd0])
      (by norm_num [pd0]) (by norm_num [c2s]) (by norm_num [c2s])
      (by norm_num [c2s]) (by norm_num [c2s]) (by norm_num [c2s])
      (by norm_num [c2s])).2.2.2.1,
   (c1_bounded_fields_amended.2 pro_args0 pd0 c2s (by norm_num [pd0]) (by norm_num [pd0])
      (by norm_num [pd0]) (by norm_num [c2s]) (by norm_num [c2s])
      (by norm_num [c2s]) (by norm_num [c2s]) (by norm_num [c2s])
      (by norm_num [c2s])).1.1⟩

/-- C1 counterexample: a concrete tick of `src/sim/simulator.py` whose
pre-state satisfies every declared bound and whose draws lie in the
documented `random.uniform` ranges, on which the failure event fires and the
post-tick battery SOC is strictly below 0 — so a bounded field leaves its
declared range on a failure tick, refuting C1 as stated. -/
theorem c1_failure_tick_soc_below_zero :
    (0 ≤ cex_s.battery_soc ∧ cex_s.battery_soc ≤ 100
      ∧ cfg5.AMBIENT ≤ cex_s.brake_temp ∧ cex_s.brake_temp ≤ 160
      ∧ 0.05 ≤ cex_s.brake_pad ∧ cex_s.brake_pad ≤ 1
      ∧ 0 ≤ cex_s.tire_wear ∧ cex_s.tire_wear ≤ 1
      ∧ 0 ≤ cex_s.speed_kph ∧ cex_s.speed_kph ≤ 280)
    ∧ (140 ≤ cex_d.target_fast ∧ cex_d.target_fast ≤ 240
      ∧ 60 ≤ cex_d.target_slow ∧ cex_d.target_slow ≤ 120
      ∧ 0.05 ≤ cex_d.blend ∧ cex_d.blend ≤ 0.15
      ∧ 0.5 ≤ cex_d.heat_rand ∧ cex_d.heat_rand ≤ 1.5
      ∧ 15 ≤ cex_d.fail_temp ∧ cex_d.fail_temp ≤ 30
      ∧ 1 ≤ cex_d.fail_soc ∧ cex_d.fail_soc ≤ 2
      ∧ 5 ≤ cex_d.cool_rand ∧ cex_d.cool_rand ≤ 10
      ∧ cex_d.fail_fires = true)
    ∧ (SimLoop.sim_tick cfg5 cex_d cex_s).1.battery_soc < 0 := by
  refine ⟨by norm_num [cex_s, cfg5], by norm_num [cex_d], ?_⟩
  norm_num [SimLoop.sim_tick, SimLoop.sim_failure, SimLoop.in_brake_zone,
    SimLoop.BRAKES, cfg5, cex_d, cex_s, List.any_cons, List.any_nil,
    Bool.or_eq_true, Bool.and_eq_true, decide_eq_true_eq, max_def, min_def]

/-- C2 (amended): per tick of `src/sim/simulator.py`, total distance is
non-decreasing and tire wear is non-decreasing (given wear at most 1), brake
pad is non-increasing (given pad within its clamp range) and battery SOC is
non-increasing provided SOC is nonnegative at tick start (failure ticks
included); per tick of `pro_sim.py`, total distance is non-decreasing and
SOC, pad and tire are non-increasing.  The original claim is refuted by
`c2_pro_tire_fraction_decreases`: `pro_sim`'s `tire_wear_frac` is a
remaining-tread fraction that strictly decreases, not a wear fraction. -/
theorem c2_monotonicity_amended :
    (∀ (c : SimLoop.SimCfg) (d : SimLoop.SimDraws) (s : SimLoop.SimState),
      0 ≤ c.TICK_SEC →
      s.session_distance ≤ (SimLoop.sim_tick c d s).1.session_distance
      ∧ (s.tire_wear ≤ 1 → s.tire_wear ≤ (SimLoop.sim_tick c d s).1.tire_wear)
      ∧ (0.05 ≤ s.brake_pad → s.brake_pad ≤ 1 →
          (SimLoop.sim_tick c d s).1.brake_pad ≤ s.brake_pad)
      ∧ (0 ≤ s.battery_soc → 0 ≤ d.fail_soc →
          (SimLoop.sim_tick c d s).1.battery_soc ≤ s.battery_soc))
    ∧ (∀ (a : ProSim.Args) (d : ProSim.ProDraws) (s : ProSim.ProState),
      0 ≤ a.dt → 0 ≤ d.temp_pow → 0 ≤ d.r_fail → 0 ≤ d.r_brake →
      s.dist ≤ (ProSim.pro_tick a d s).1.dist
      ∧ (0 ≤ s.soc → (ProSim.pro_tick a d s).1.soc ≤ s.soc)
      ∧ (0 ≤ s.pad → (ProSim.pro_tick a d s).1.pad ≤ s.pad)
      ∧ (0 ≤ s.tire → (ProSim.pro_tick a d s).1.tire ≤ s.tire)) := by
  constructor
  · intro c d s ht
    simp only [SimLoop.sim_tick, SimLoop.sim_failure]
    set tgt : ℚ := if SimLoop.in_brake_zone
        (if 0 < c.LAP_LEN then s.lap_distance / c.LAP_LEN else 0) = true
      then d.target_slow else d.target_fast with htgt
    set v : ℚ := max 0 (min 280 (s.speed_kph + (tgt - s.speed_kph) * d.blend)) with hv
    have hv0 : 0 ≤ v := le_max_left _ _
    have hstep : 0 ≤ v / 3.6 * c.TICK_SEC :=
      mul_nonneg (div_nonneg hv0 (by norm_num)) ht
    refine ⟨by linarith, ?_, ?_, ?_⟩
    · intro h1
      have h2 : 0 ≤ 0.0002 * (v / 150) :=
        mul_nonneg (by norm_num) (div_nonneg hv0 (by norm_num))
      exact le_min h1 (by linarith)
    · intro hp1 hp2
      have hw : 0 ≤ 0.0008 * (v / 120) :=
        mul_nonneg (by norm_num) (div_nonneg hv0 (by norm_num))
      split_ifs <;>
        exact max_le hp1 (le_trans (min_le_right _ _) (by linarith))
    · intro hs hfs
      have h1 : 0 ≤ 0.005 * c.TICK_SEC := mul_nonneg (by norm_num) ht
      have h2 : 0 ≤ 0.00002 * v ^ 2 * (c.TICK_SEC / 1) :=
        mul_nonneg (mul_nonneg (by norm_num) (sq_nonneg v)) (by linarith)
      have h3 : 0 ≤ max 0 (((v - s.prev_speed_kph) / 3.6) / max 1 c.TICK_SEC) * 0.01 :=
        mul_nonneg (le_max_left _ _) (by norm_num)
      cases hff : d.fail_fires
      · simp only [Bool.false_eq_true, if_false]
        exact max_le hs (by linarith)
      · simp only [if_true]
        exact le_trans (sub_le_self _ hfs) (max_le hs (by linarith))
  · intro a d s hdt hpow hrf hrb
    simp only [ProSim.pro_tick, ProSim.control_pattern]
    set th : ℚ := max 0 (min 1 (0.55 + 0.4 * d.sin_val + d.u)) with hth
    set br : ℚ := if 23 < ProSim.qmod s.t 28 then 0.6 + 0.3 * d.r_brake else 0 with hbr
    have hbr0 : 0 ≤ br := by
      rw [hbr]; split_ifs
      · linarith
      · exact le_refl 0
    set ac : ℚ := th * ProSim.MAX_ACCEL - br * ProSim.MAX_BRAKE with hac
    set v1 : ℚ := max 0 (s.speed * 1000 / 3600 + ac * a.dt) with hv1
    set sm : ℚ := max 0 (v1 - 0.00035 * v1 ^ 2) with hsm
    have hsm0 : 0 ≤ sm := le_max_left _ _
    set sp0 : ℚ := min ProSim.MAX_SPEED (sm * 3.6) with hsp0
    have hsp00 : 0 ≤ sp0 :=
      le_min (by norm_num [ProSim.MAX_SPEED]) (mul_nonneg hsm0 (by norm_num))
    have hdstep : 0 ≤ sm * a.dt := mul_nonneg hsm0 hdt
    have hdrop : 0 ≤ ProSim.BASE_SOC_DROP * (1 + (sp0 / 120) ^ 2 + d.temp_pow) * 100 := by
      have h1 : 0 ≤ (sp0 / 120) ^ 2 := sq_nonneg _
      have h2 : 0 ≤ (1 + (sp0 / 120) ^ 2 + d.temp_pow) := by linarith
      have h3 : (0:ℚ) ≤ ProSim.BASE_SOC_DROP := by norm_num [ProSim.BASE_SOC_DROP]
      positivity
    have hpadrate : 0 ≤ ProSim.PAD_WEAR_RATE * (br + 0.3 * sp0 / 200) := by
      have h1 : 0 ≤ 0.3 * sp0 / 200 := by positivity
      have h2 : (0:ℚ) ≤ ProSim.PAD_WEAR_RATE := by norm_num [ProSim.PAD_WEAR_RATE]
      have h3 : 0 ≤ br + 0.3 * sp0 / 200 := by linarith
      positivity
    have htirerate : 0 ≤ ProSim.TIRE_WEAR_RATE * (sp0 / 220 + |ac| / ProSim.MAX_BRAKE) := by
      have h1 : 0 ≤ sp0 / 220 := by positivity
      have h2 : 0 ≤ |ac| / ProSim.MAX_BRAKE := by
        have := abs_nonneg ac
        norm_num [ProSim.MAX_BRAKE]
        linarith
      have h3 : (0:ℚ) ≤ ProSim.TIRE_WEAR_RATE := by norm_num [ProSim.TIRE_WEAR_RATE]
      positivity
    by_cases hroll : ProSim.LAP_M ≤ s.dist + sm * a.dt - s.lap_dist_start
    · rw [if_pos hroll]
      refine ⟨by dsimp only; linarith, ?_, ?_, ?_⟩
      · intro hs
        dsimp only
        refine le_trans (pf_soc_le _ _ _ _ _ _ _ _ (le_max_left _ _) hrf) ?_
        exact max_le hs (by linarith)
      · intro hp
        dsimp only
        exact max_le hp (by linarith)
      · intro htr
        dsimp only
        exact max_le htr (by linarith)
    · rw [if_neg hroll]
      refine ⟨by dsimp only; linarith, ?_, ?_, ?_⟩
      · intro hs
        dsimp only
        refine le_trans (pf_soc_le _ _ _ _ _ _ _ _ (le_max_left _ _) hrf) ?_
        exact max_le hs (by linarith)
      · intro hp
        dsimp only
        exact max_le hp (by linarith)
      · intro htr
        dsimp only
        exact max_le htr (by linarith)

/-- Witness for `c2_monotonicity_amended` at concrete inputs. -/
theorem c2_monotonicity_amended_witness :
    cex_s.session_distance ≤ (SimLoop.sim_tick cfg5 wit_d cex_s).1.session_distance
    ∧ (ProSim.pro_tick pro_args0 pd0 c2s).1.tire ≤ c2s.tire :=
  ⟨(c2_monotonicity_amended.1 cfg5 wit_d cex_s (by norm_num [cfg5])).1,
   (c2_monotonicity_amended.2 pro_args0 pd0 c2s (by norm_num [pro_args0]) (by norm_num [pd0])
      (by norm_num [pd0]) (by norm_num [pd0])).2.2.2 (by norm_num [c2s])⟩

/-- C2 counterexample: a concrete `pro_sim.py` tick on which the recorded
`tire_wear_frac` value strictly decreases (both the exact state variable and
its 4-decimal rounded CSV form), refuting the claim that tire wear never
decreases across consecutive ticks. -/
theorem c2_pro_tire_fraction_decreases :
    (ProSim.pro_tick pro_args0 pd0 c2s).1.tire < c2s.tire
    ∧ roundTo 4 ((ProSim.pro_tick pro_args0 pd0 c2s).1.tire) < roundTo 4 c2s.tire := by
  constructor
  · norm_num [ProSim.pro_tick, ProSim.control_pattern, ProSim.pro_failure,
      ProSim.qmod, ProSim.LAP_M, ProSim.TRACK_KM, ProSim.MAX_SPEED, ProSim.MAX_ACCEL,
      ProSim.MAX_BRAKE, ProSim.BASE_SOC_DROP, ProSim.TEMP_COOL_RATE,
      ProSim.TEMP_HEAT_RATE, ProSim.PAD_WEAR_RATE, ProSim.TIRE_WEAR_RATE,
      pro_args0, pd0, c2s, max_def, min_def, abs]
  · norm_num [ProSim.pro_tick, ProSim.control_pattern, ProSim.pro_failure,
      ProSim.qmod, ProSim.LAP_M, ProSim.TRACK_KM, ProSim.MAX_SPEED, ProSim.MAX_ACCEL,
      ProSim.MAX_BRAKE, ProSim.BASE_SOC_DROP, ProSim.TEMP_COOL_RATE,
      ProSim.TEMP_HEAT_RATE, ProSim.PAD_WEAR_RATE, ProSim.TIRE_WEAR_RATE,
      pro_args0, pd0, c2s, max_def, min_def, abs, roundTo, roundHalfEven]

/-- C3: in `pro_sim.py`, over any run from the initial state the emitted
lap numbers are exactly `1, 2, ..., k` (strictly increasing by 1, no gaps or
repeats, each emitted exactly once) and the lap counter is always one ahead
of the number of emitted summaries; on any tick where in-lap distance
reaches the lap length, exactly one `LapSummary` carrying the current lap
number is appended, the lap counter increments by exactly 1 and in-lap
distance resets to 0, and on any other tick nothing changes; summaries
already emitted are never revised (any longer run extends the list, keeping
the emitted records as a prefix); in `simulator.py`, a rollover tick
increments `lap` by 1 and resets `lap_distance` to 0. -/
theorem c3_lap_summary_emission :
    (∀ (a : ProSim.Args) (ds : ℕ → ProSim.ProDraws) (n : ℕ),
      (ProSim.pro_run a ds n ProSim.pro_init).laps_data.map (fun x => x.lap)
        = List.range' 1 (ProSim.pro_run a ds n ProSim.pro_init).laps_data.length
      ∧ (ProSim.pro_run a ds n ProSim.pro_init).lap
        = (ProSim.pro_run a ds n ProSim.pro_init).laps_data.length + 1)
    ∧ (∀ (a : ProSim.Args) (d : ProSim.ProDraws) (s : ProSim.ProState),
      (ProSim.LAP_M ≤ (ProSim.pro_tick a d s).1.dist - s.lap_dist_start →
        ((ProSim.pro_tick a d s).1.laps_data).map (fun x => x.lap)
            = s.laps_data.map (fun x => x.lap) ++ [s.lap]
        ∧ ((ProSim.pro_tick a d s).1.laps_data).length = s.laps_data.length + 1
        ∧ (ProSim.pro_tick a d s).1.lap = s.lap + 1
        ∧ (ProSim.pro_tick a d s).1.dist - (ProSim.pro_tick a d s).1.lap_dist_start = 0)
      ∧ (¬ ProSim.LAP_M ≤ (ProSim.pro_tick a d s).1.dist - s.lap_dist_start →
        (ProSim.pro_tick a d s).1.laps_data = s.laps_data
        ∧ (ProSim.pro_tick a d s).1.lap = s.lap
        ∧ (ProSim.pro_tick a d s).1.lap_dist_start = s.lap_dist_start))
    ∧ (∀ (a : ProSim.Args) (ds : ℕ → ProSim.ProDraws) (n m : ℕ),
      (ProSim.pro_run a ds (n + m) ProSim.pro_init).laps_data.take
          (ProSim.pro_run a ds n ProSim.pro_init).laps_data.length
        = (ProSim.pro_run a ds n ProSim.pro_init).laps_data)
    ∧ (∀ (c : SimLoop.SimCfg) (d : SimLoop.SimDraws) (s : SimLoop.SimState),
      (c.LAP_LEN ≤ s.lap_distance
          + ((SimLoop.sim_tick c d s).1.session_distance - s.session_distance) →
        (SimLoop.sim_tick c d s).1.lap = s.lap + 1
        ∧ (SimLoop.sim_tick c d s).1.lap_distance = 0)
      ∧ (¬ c.LAP_LEN ≤ s.lap_distance
          + ((SimLoop.sim_tick c d s).1.session_distance - s.session_distance) →
        (SimLoop.sim_tick c d s).1.lap = s.lap
        ∧ (SimLoop.sim_tick c d s).1.lap_distance = s.lap_distance
            + ((SimLoop.sim_tick c d s).1.session_distance - s.session_distance))) := by
  refine ⟨?_, ?_, ?_, ?_⟩
  · intro a ds n
    exact pro_run_laps_inv a ds n ProSim.pro_init ⟨rfl, rfl⟩
  · intro a d s
    exact pro_tick_roll_iff a d s
  · intro a ds n m
    rw [pro_run_add]
    obtain ⟨l, hl⟩ := pro_run_laps_extend a ds m (ProSim.pro_run a ds n ProSim.pro_init)
    rw [hl]
    exact List.take_left _ _
  · intro c d s
    simp only [SimLoop.sim_tick, SimLoop.sim_failure]
    set tgt : ℚ := if SimLoop.in_brake_zone
        (if 0 < c.LAP_LEN then s.lap_distance / c.LAP_LEN else 0) = true
      then d.target_slow else d.target_fast with htgt
    set v : ℚ := max 0 (min 280 (s.speed_kph + (tgt - s.speed_kph) * d.blend)) with hv
    by_cases hroll : c.LAP_LEN ≤ s.lap_distance + v / 3.6 * c.TICK_SEC
    · simp only [if_pos hroll]
      constructor
      · intro _
        exact ⟨trivial, trivial⟩
      · intro hn
        exact absurd (by linarith [hroll]) hn
    · simp only [if_neg hroll]
      constructor
      · intro hc
        exact absurd (by linarith [hc]) hroll
      · intro _
        exact ⟨trivial, by ring⟩

/-- Witness for `c3_lap_summary_emission` at a concrete rollover tick. -/
theorem c3_lap_summary_emission_witness :
    ((ProSim.pro_tick pro_args0 pd0 c3s).1.laps_data).length = c3s.laps_data.length + 1
    ∧ (ProSim.pro_tick pro_args0 pd0 c3s).1.lap = c3s.lap + 1 :=
  ⟨((c3_lap_summary_emission.2.1 pro_args0 pd0 c3s).1 (by
      norm_num [ProSim.pro_tick, ProSim.control_pattern, ProSim.pro_failure,
        ProSim.qmod, ProSim.LAP_M, ProSim.TRACK_KM, ProSim.MAX_SPEED, ProSim.MAX_ACCEL,
        ProSim.MAX_BRAKE, ProSim.BASE_SOC_DROP, ProSim.TEMP_COOL_RATE,
        ProSim.TEMP_HEAT_RATE, ProSim.PAD_WEAR_RATE, ProSim.TIRE_WEAR_RATE,
        pro_args0, pd0, c3s, max_def, min_def, abs])).2.1,
   ((c3_lap_summary_emission.2.1 pro_args0 pd0 c3s).1 (by
      norm_num [ProSim.pro_tick, ProSim.control_pattern, ProSim.pro_failure,
        ProSim.qmod, ProSim.LAP_M, ProSim.TRACK_KM, ProSim.MAX_SPEED, ProSim.MAX_ACCEL,
        ProSim.MAX_BRAKE, ProSim.BASE_SOC_DROP, ProSim.TEMP_COOL_RATE,
        ProSim.TEMP_HEAT_RATE, ProSim.PAD_WEAR_RATE, ProSim.TIRE_WEAR_RATE,
        pro_args0, pd0, c3s, max_def, min_def, abs])).2.2.1⟩

/-- C4: the risk scorer `risk_and_reasons` of `src/sim/simulator.py`
returns a risk in `[0,1]` equal to the clamped sum of one capped, weighted
contribution per violated threshold condition (over-temperature, low pad,
low SOC); each triggered condition contributes exactly one reason string,
the number of reasons equals the number of triggered conditions (one
`"nominal"` entry when none), and the reasons are exactly `["nominal"]`
precisely when no threshold is violated. -/
theorem c4_risk_weighted_sum (c : SimLoop.SimCfg) (t p soc : ℚ) :
    (0 ≤ (SimLoop.risk_and_reasons c t p soc).1
      ∧ (SimLoop.risk_and_reasons c t p soc).1 ≤ 1)
    ∧ (SimLoop.risk_and_reasons c t p soc).1
        = max 0 (min 1
            ((if c.TEMP_MAX < t then (min ((t - c.TEMP_MAX) / 40) 1) * 0.6 else 0)
           + (if p < c.PAD_MIN then (min ((c.PAD_MIN - p) / 0.4) 1) * 0.6 else 0)
           + (if soc < c.SOC_MIN then (min ((c.SOC_MIN - soc) / 20) 1) * 0.5 else 0)))
    ∧ (c.TEMP_MAX < t →
        (("high brake temp ") ++ fmtDec 1 t ++ ("C")) ∈ (SimLoop.risk_and_reasons c t p soc).2)
    ∧ (p < c.PAD_MIN →
        (("low pad ") ++ fmtDec 2 p) ∈ (SimLoop.risk_and_reasons c t p soc).2)
    ∧ (soc < c.SOC_MIN →
        (("low SOC ") ++ fmtDec 1 soc ++ ("%")) ∈ (SimLoop.risk_and_reasons c t p soc).2)
    ∧ (SimLoop.risk_and_reasons c t p soc).2.length
        = max 1 ((if c.TEMP_MAX < t then 1 else 0) + (if p < c.PAD_MIN then 1 else 0)
                 + (if soc < c.SOC_MIN then 1 else 0))
    ∧ ((SimLoop.risk_and_reasons c t p soc).2 = [("nominal")]
        ↔ (t ≤ c.TEMP_MAX ∧ c.PAD_MIN ≤ p ∧ c.SOC_MIN ≤ soc)) := by
  simp only [SimLoop.risk_and_reasons]
  split_ifs with h1 h2 h3 <;> simp_all [not_lt] <;>
  · constructor
    · intro e
      exact absurd e (by first
        | exact append3_ne_of_lt _ _ _ _ (by decide)
        | exact append2_ne_of_lt _ _ _ (by decide))
    · intro hh
      linarith

/-- Witness for `c4_risk_weighted_sum`: the over-temperature reason at a
concrete triggering input. -/
theorem c4_risk_weighted_sum_witness :
    (("high brake temp ") ++ fmtDec 1 (100:ℚ) ++ ("C"))
      ∈ (SimLoop.risk_and_reasons cfg5 100 1 98).2 :=
  (c4_risk_weighted_sum cfg5 100 1 98).2.2.1 (by norm_num [cfg5])

/-- C5: with config `temp_max_C = 95`, `brake_wear_threshold = 0.2`,
`soc_min_pct = 15`, `lap_length_m = 5000`, `tick_sec = 1`, scoring a state
with `brake_temp = 100` (pad and SOC nominal) yields exactly the
temperature contribution `min((100-95)/40, 1) * 0.6`, which is strictly
positive, and the reasons contain the temperature string. -/
theorem c5_brake_temp_scenario :
    SimLoop.risk_and_reasons cfg5 100 1 98
      = ((min ((100 - 95) / 40) 1) * 0.6, [("high brake temp 100.0C")])
    ∧ (0 : ℚ) < (min (((100 : ℚ) - 95) / 40) 1) * 0.6
    ∧ (("high brake temp 100.0C") ∈ (SimLoop.risk_and_reasons cfg5 100 1 98).2) := by
  have hf : fmtDec 1 (100 : ℚ) = ("100.0") := by
    have h1 : roundHalfEven ((100 : ℚ) * 10 ^ 1) = 1000 := by
      norm_num [roundHalfEven]
    simp only [fmtDec, h1]
    decide
  have h : SimLoop.risk_and_reasons cfg5 100 1 98
      = ((min ((100 - 95) / 40) 1) * 0.6, [("high brake temp 100.0C")]) := by
    unfold SimLoop.risk_and_reasons cfg5
    norm_num [min_def, hf]
    decide
  refine ⟨h, by norm_num [min_def], by rw [h]; simp⟩

/-- C6: the risk scorers are deterministic and side-effect-free.  In the
embedding both scorers are pure functions taking no randomness source and
returning without touching the state, so determinism is congruence: any two
states with identical scored field values (brake temperature, pad fraction,
battery SOC) and equal configs — all other fields arbitrary — score to
identical `(risk, reasons)` pairs, for `risk_and_reasons`
(`src/sim/simulator.py`) and `risk_and_reason` (`src/src/simulator.py`). -/
theorem c6_scorer_deterministic :
    (∀ (c c' : SimLoop.SimCfg) (s1 s2 : SimLoop.SimState), c = c' →
        s1.brake_temp = s2.brake_temp → s1.brake_pad = s2.brake_pad →
        s1.battery_soc = s2.battery_soc →
        SimLoop.score_state c s1 = SimLoop.score_state c' s2)
    ∧ (∀ (c c' : SrcSim.SrcCfg) (t t' p p' : ℚ), c = c' → t = t' → p = p' →
        SrcSim.risk_and_reason c t p = SrcSim.risk_and_reason c' t' p') := by
  constructor
  · intro c c' s1 s2 hc h1 h2 h3
    subst hc
    unfold SimLoop.score_state
    rw [h1, h2, h3]
  · intro c c' t t' p p' hc h1 h2
    subst hc; subst h1; subst h2; rfl

/-- Witness for `c6_scorer_deterministic`: two states differing in every
non-scored field score identically. -/
theorem c6_scorer_deterministic_witness :
    SimLoop.score_state cfg5 w1 = SimLoop.score_state cfg5 w2
    ∧ SrcSim.risk_and_reason ⟨95, 0.2⟩ 80 1 = SrcSim.risk_and_reason ⟨95, 0.2⟩ 80 1 :=
  ⟨c6_scorer_deterministic.1 cfg5 cfg5 w1 w2 rfl rfl rfl rfl, c6_scorer_deterministic.2 ⟨95, 0.2⟩ ⟨95, 0.2⟩ 80 80 1 1 rfl rfl rfl⟩

/-- C7: the `pro_sim.py` loop guard fails exactly when the configured lap
count is exceeded or a resource has dropped to its stopping floor (SOC at
most 3, pad at most 0.05, tire at most 0.05), whichever comes first; once
the guard fails no further tick is processed (the run is frozen), in
particular whenever battery SOC is 0; and the loop terminates: SOC drops by
at least 0.04 per processed tick, so with draws in range the guard fails
within `(soc - 3) / 0.04` ticks. -/
theorem c7_loop_termination :
    (∀ (a : ProSim.Args) (s : ProSim.ProState),
      ¬ ProSim.pro_guard a s
        ↔ (a.laps < s.lap ∨ s.soc ≤ 3 ∨ s.pad ≤ 0.05 ∨ s.tire ≤ 0.05))
    ∧ (∀ (a : ProSim.Args) (ds : ℕ → ProSim.ProDraws) (s : ProSim.ProState),
      ¬ ProSim.pro_guard a s → ∀ n, ProSim.pro_run a ds n s = s)
    ∧ (∀ (a : ProSim.Args) (ds : ℕ → ProSim.ProDraws) (s : ProSim.ProState),
      s.soc = 0 → ∀ n, ProSim.pro_run a ds n s = s)
    ∧ (∀ (a : ProSim.Args) (ds : ℕ → ProSim.ProDraws) (s : ProSim.ProState) (N : ℕ),
      (∀ k, 0 ≤ (ds k).temp_pow ∧ 0 ≤ (ds k).r_fail) →
      s.soc - 3 ≤ 0.04 * N →
      ¬ ProSim.pro_guard a (ProSim.pro_run a ds N s)) := by
  refine ⟨?_, pro_run_frozen, ?_, ?_⟩
  · intro a s
    unfold ProSim.pro_guard
    push_neg
    constructor
    · intro h
      by_cases h1 : s.lap ≤ a.laps
      · rcases lt_or_le 3 s.soc with h2 | h2
        · rcases lt_or_le (0.05:ℚ) s.pad with h3 | h3
          · exact Or.inr (Or.inr (Or.inr (h h1 h2 h3)))
          · exact Or.inr (Or.inr (Or.inl h3))
        · exact Or.inr (Or.inl h2)
      · exact Or.inl (not_le.mp h1)
    · intro h h1 h2 h3
      rcases h with h4 | h4 | h4 | h4
      · omega
      · linarith
      · linarith
      · exact h4
  · intro a ds s h n
    refine pro_run_frozen a ds s ?_ n
    intro hg
    unfold ProSim.pro_guard at hg
    rw [h] at hg
    linarith [hg.2.1]
  · intro a ds s N hd hN
    rcases pro_run_soc_bound a ds hd N s with hg | hsoc
    · exact hg
    · intro hg
      unfold ProSim.pro_guard at hg
      linarith [hg.2.1]

/-- Witness for `c7_loop_termination`: from SOC `3.01` the guard fails
after one tick, and with SOC `0` no tick is processed at all. -/
theorem c7_loop_termination_witness :
    ¬ ProSim.pro_guard pro_args0 (ProSim.pro_run pro_args0 (fun _ => pd0) 1 s7)
    ∧ ProSim.pro_run pro_args0 (fun _ => pd0) 3
        (ProSim.ProState.mk 0 1 0 0 0 0 1200 60 0 1 1 0 0 60 [] [] 0)
      = ProSim.ProState.mk 0 1 0 0 0 0 1200 60 0 1 1 0 0 60 [] [] 0 :=
  ⟨(c7_loop_termination.2.2.2) pro_args0 (fun _ => pd0) s7 1
      (fun _ => ⟨le_refl 0, le_refl 0⟩)
      (by push_cast; norm_num [s7]),
   (c7_loop_termination.2.2.1) pro_args0 (fun _ => pd0)
      (ProSim.ProState.mk 0 1 0 0 0 0 1200 60 0 1 1 0 0 60 [] [] 0) rfl 3⟩

/-- C8 (amended): publish failures are non-fatal in both loops — the
per-tick publish is fire-and-forget, so the whole state evolution is
identical for any two draw streams differing only in publish outcomes; in
`simulator.py` the MQTT connect failure is caught and the loop runs
unconditionally (its state is `sim_run`, independent of the connect
outcome); in `pro_sim.py` a SUCCESSFUL connect runs the loop, but a connect
failure is uncaught and fatal — refuted as originally stated by
`c8_connect_failure_fatal_in_pro_sim`. -/
theorem c8_publish_nonfatal_amended :
    (∀ (c : SimLoop.SimCfg) (ds ds' : ℕ → SimLoop.SimDraws) (n : ℕ)
        (s : SimLoop.SimState),
      (∀ k, sim_draws_eq_except_pub (ds k) (ds' k)) →
      SimLoop.sim_run c ds n s = SimLoop.sim_run c ds' n s)
    ∧ (∀ (a : ProSim.Args) (ds ds' : ℕ → ProSim.ProDraws) (n : ℕ)
        (s : ProSim.ProState),
      (∀ k, pro_draws_eq_except_pub (ds k) (ds' k)) →
      ProSim.pro_run a ds n s = ProSim.pro_run a ds' n s)
    ∧ (∀ (enabled connect_ok : Bool) (c : SimLoop.SimCfg) (ds : ℕ → SimLoop.SimDraws)
        (n : ℕ) (s : SimLoop.SimState),
      (SimLoop.sim_main enabled connect_ok c ds n s).2 = SimLoop.sim_run c ds n s)
    ∧ (∀ (a : ProSim.Args) (ds : ℕ → ProSim.ProDraws) (n : ℕ),
      ProSim.pro_main true a ds n
        = Except.ok (ProSim.pro_run a ds n ProSim.pro_init)) := by
  refine ⟨?_, ?_, ?_, ?_⟩
  · intro c ds ds' n s h
    exact sim_run_pub_irrel c ds ds' h n s
  · intro a ds ds' n s h
    exact pro_run_pub_irrel a ds ds' h n s
  · intro enabled connect_ok c ds n s
    rfl
  · intro a ds n
    rfl

/-- Witness for `c8_publish_nonfatal_amended`: two concrete streams
differing in every tick's publish outcome produce the same run state. -/
theorem c8_publish_nonfatal_amended_witness :
    SimLoop.sim_run cfg5 dsA 3 cex_s = SimLoop.sim_run cfg5 dsB 3 cex_s :=
  c8_publish_nonfatal_amended.1 cfg5 dsA dsB 3 cex_s
    (fun _ => ⟨rfl, rfl, rfl, rfl, rfl, rfl, rfl, rfl⟩)

/-- C8 counterexample: `pro_sim.main` with a failing MQTT connect raises
out of `mqtt_client` (lines 33-36 have no try/except) and terminates before
processing a single tick, contradicting the claim that any transport
connect failure is non-fatal. -/
theorem c8_connect_failure_fatal_in_pro_sim :
    ProSim.pro_main false pro_args0 (fun _ => pd0) 5 = Except.error ("connect refused") := rfl

/-- C9 (amended): `pro_sim.py`'s failure injector applies exactly one mode
chosen from brake-overheat / battery-spike / sensor-glitch, and each mode
perturbs only its own field (temperature, SOC, speed respectively) plus the
`(risk, reasons)` annotation, leaving the other physical quantities
untouched; with the event not firing (or failures disabled) the injector is
the identity with the nominal annotation, and the whole deterministic tick
is independent of the failure draws.  In `simulator.py` the failure event
instead perturbs brake temperature and battery SOC together with no mode
choice — refuted as originally stated by `c9_sim_failure_two_fields`. -/
theorem c9_failure_injector_amended :
    (∀ (r j sp tp so : ℚ),
        ProSim.pro_failure true true ProSim.FailMode.brakeOverheat r j sp tp so
          = (sp, tp + 30 + 40 * r, so, 0.9, ("random_failure: brake_overheat"))
      ∧ ProSim.pro_failure true true ProSim.FailMode.batterySpike r j sp tp so
          = (sp, tp, max 0 (so - (5 + 8 * r)), 0.7, ("random_failure: battery_spike"))
      ∧ ProSim.pro_failure true true ProSim.FailMode.sensorGlitch r j sp tp so
          = (max 0 (sp + j), tp, so, 0.5, ("random_failure: sensor_glitch")))
    ∧ (∀ (f : Bool) (m : ProSim.FailMode) (r j sp tp so : ℚ),
        ProSim.pro_failure f false m r j sp tp so = (sp, tp, so, 0, ("nominal"))
      ∧ ProSim.pro_failure false f m r j sp tp so = (sp, tp, so, 0, ("nominal")))
    ∧ (∀ (a : ProSim.Args) (d d' : ProSim.ProDraws) (s : ProSim.ProState),
        a.failures = false →
        d.sin_val = d'.sin_val → d.u = d'.u → d.r_brake = d'.r_brake →
        d.r_rpm = d'.r_rpm → d.temp_pow = d'.temp_pow →
        (ProSim.pro_tick a d s).1 = (ProSim.pro_tick a d' s).1)
    ∧ (∀ (j dr tp so : ℚ),
        SimLoop.sim_failure true j dr tp so = (tp + j, so - dr)) := by
  refine ⟨fun r j sp tp so => ⟨rfl, rfl, rfl⟩, ?_, ?_, fun j dr tp so => rfl⟩
  · intro f m r j sp tp so
    constructor <;> simp [ProSim.pro_failure]
  · intro a d d' s ha h1 h2 h3 h4 h5
    obtain ⟨d1, d2, d3, d4, d5, d6, d7, d8, d9, d10⟩ := d
    obtain ⟨e1, e2, e3, e4, e5, e6, e7, e8, e9, e10⟩ := d'
    simp only at h1 h2 h3 h4 h5
    subst h1; subst h2; subst h3; subst h4; subst h5
    simp [ProSim.pro_tick, ProSim.pro_failure, ProSim.control_pattern, ha]

/-- Witness for `c9_failure_injector_amended`: with failures disabled the
tick state is identical under completely different failure draws. -/
theorem c9_failure_injector_amended_witness :
    (ProSim.pro_tick pro_args0 pd0 c2s).1 = (ProSim.pro_tick pro_args0 pdX c2s).1 :=
  c9_failure_injector_amended.2.2.1 pro_args0 pd0 pdX c2s rfl rfl rfl rfl rfl rfl

/-- C9 counterexample: on a concrete `simulator.py` tick the failure event
changes BOTH the brake temperature and the battery SOC relative to the same
tick without the event, so the injector does not perturb only one mode's
field; there is no mode selection (and no sensor glitch) in this loop. -/
theorem c9_sim_failure_two_fields :
    (SimLoop.sim_tick cfg5 cex_d cex_s).1.brake_temp
        ≠ (SimLoop.sim_tick cfg5 wit_d cex_s).1.brake_temp
    ∧ (SimLoop.sim_tick cfg5 cex_d cex_s).1.battery_soc
        ≠ (SimLoop.sim_tick cfg5 wit_d cex_s).1.battery_soc
    ∧ cex_d.fail_fires = true ∧ wit_d.fail_fires = false := by
  refine ⟨?_, ?_, rfl, rfl⟩ <;>
    norm_num [SimLoop.sim_tick, SimLoop.sim_failure, SimLoop.in_brake_zone,
      SimLoop.BRAKES, cfg5, cex_d, wit_d, cex_s, List.any_cons, List.any_nil,
      Bool.or_eq_true, Bool.and_eq_true, decide_eq_true_eq, max_def, min_def]

/-- C10: for `risk_and_reason` of `src/src/simulator.py` (and its backup
variant), whenever the temperature lies strictly above `temp_max_C - 10`
and at most `temp_max_C`, the returned risk is the clamp of `0.3` plus the
pad contribution and the reasons contain the fixed nearing-limit string; in
particular with the pad above its threshold the risk is exactly `0.3 > 0`
and the reasons are the singleton nearing-limit list, not `["nominal"]` —
even though no configured threshold has been crossed. -/
theorem c10_nearing_limit_band (c : SrcSim.SrcCfg) (t p b v : ℚ)
    (h1 : c.temp_max_C - 10 < t) (h2 : t ≤ c.temp_max_C) :
    (SrcSim.risk_and_reason c t p).1
      = max 0 (min 1 (0.3 + (if p < c.brake_wear_threshold
          then 0.5 * min ((c.brake_wear_threshold - p) / 0.3) 1 else 0)))
    ∧ ((("temperature nearing limit (") ++ fmtDec 1 t ++ ("°C)"))
        ∈ (SrcSim.risk_and_reason c t p).2)
    ∧ (c.brake_wear_threshold ≤ p →
        (SrcSim.risk_and_reason c t p).1 = 0.3
        ∧ (SrcSim.risk_and_reason c t p).2
            = [("temperature nearing limit (") ++ fmtDec 1 t ++ ("°C)")]
        ∧ (SrcSim.risk_and_reason c t p).2 ≠ [("nominal")])
    ∧ (c.brake_wear_threshold ≤ p → 15 ≤ b → v ≤ 230 →
        (SrcSim.risk_and_reason_backup c t p b v).1 = 0.3
        ∧ (SrcSim.risk_and_reason_backup c t p b v).2
            = [("temperature nearing limit (") ++ fmtDec 1 t ++ ("°C)")]) := by
  have hnot : ¬ c.temp_max_C < t := not_lt.mpr h2
  have e : SrcSim.risk_and_reason c t p
      = (max 0 (min 1 (0.3 + (if p < c.brake_wear_threshold
            then 0.5 * min ((c.brake_wear_threshold - p) / 0.3) 1 else 0))),
         (("temperature nearing limit (") ++ fmtDec 1 t ++ ("°C)"))
           :: (if p < c.brake_wear_threshold
               then [("brake pad low (") ++ fmtDec 2 p ++ ("<")
                      ++ fmtDec 1 c.brake_wear_threshold ++ (")")] else [])) := by
    simp only [SrcSim.risk_and_reason, if_neg hnot, if_pos h1]
    split_ifs with hp hq <;> simp_all
  refine ⟨by rw [e], by rw [e]; simp, ?_, ?_⟩
  · intro hp
    have hp2 : ¬ p < c.brake_wear_threshold := not_lt.mpr hp
    rw [e]
    simp only [if_neg hp2]
    refine ⟨by norm_num [max_def, min_def], by simp, ?_⟩
    simp only [ne_eq, List.cons.injEq, and_true]
    exact append3_ne_of_lt _ _ _ _ (by decide)
  · intro hp hb hv
    have hp2 : ¬ p < c.brake_wear_threshold := not_lt.mpr hp
    have hb2 : ¬ b < 15 := not_lt.mpr hb
    have hv2 : ¬ (230 : ℚ) < v := not_lt.mpr hv
    constructor
    · simp only [SrcSim.risk_and_reason_backup, if_neg hnot, if_pos h1,
        if_neg hp2, if_neg hb2, if_neg hv2]
      norm_num [max_def, min_def]
    · simp [SrcSim.risk_and_reason_backup, if_neg hnot, if_pos h1,
        if_neg hp2, if_neg hb2, if_neg hv2]

/-- Witness for `c10_nearing_limit_band` at temperature 90 with
`temp_max_C = 95`. -/
theorem c10_nearing_limit_band_witness :
    (("temperature nearing limit (") ++ fmtDec 1 (90:ℚ) ++ ("°C)"))
      ∈ (SrcSim.risk_and_reason ⟨95, 0.2⟩ 90 1).2
    ∧ (SrcSim.risk_and_reason ⟨95, 0.2⟩ 90 1).1 = 0.3 :=
  ⟨(c10_nearing_limit_band ⟨95, 0.2⟩ 90 1 50 100 (by norm_num) (by norm_num)).2.1,
   ((c10_nearing_limit_band ⟨95, 0.2⟩ 90 1 50 100 (by norm_num) (by norm_num)).2.2.1 (by norm_num)).1⟩
